import Mathlib

/-!
AHT10 driver (STM32 / Zephyr): a verification development

Shallow embedding of `aht10_init`, `aht10_read_data`, `control_leds` and
`send_uart_data` from `i2c_aht10_led/src/main.c` (the sensor functions are
textually the same in `i2c_aht10/src/main.c`, apart from two debug `printk`
calls), and of the display step of `main` in `i2c_aht10/src/main.c`.

Modelling conventions.

* The I2C bus is an oracle: the `k`-th transfer the driver issues (writes and
  reads counted together, from 0) is answered by `bus k`, a return code and,
  for a read, the bytes delivered.  The driver is deterministic, so every bus
  behaviour is such a sequence of responses.
* `Env` is the explicit state threaded through the driver: the oracle, the
  number of transfers issued so far, and the log of bus and delay actions.
* `uint8_t` values are naturals reduced modulo 256, `uint32_t` values naturals
  reduced modulo `2^32`; `int` return codes are integers.
* `float` arithmetic is read as exact rational arithmetic.
* The `do ... while` busy-poll loop is given a fuel argument; running out of
  fuel is reported as `ret = none` ("still polling"), never as a return value.
* `printk` output is modelled only for the display step of the plain reader.
* `snprintf` and `printk` formats are expanded by `cformat`, which interprets
  the conversions the source uses; how the C library rounds `%.2f` is left as
  a parameter `rnd` of the model.
* The uptime clock is an oracle: the `k`-th call of `k_uptime_get` returns
  `clock k`.
-/

namespace AHT10

/-! Protocol constants -/

/-- Constant `AHT10_I2C_ADDR`, defined as `0x38` in the source. -/
def AHT10_I2C_ADDR : Nat := 0x38
/-- Constant `AHT10_CMD_INIT`, defined as `0xE1` in the source. -/
def AHT10_CMD_INIT : Nat := 0xE1
/-- Constant `AHT10_CMD_TRIGGER`, defined as `0xAC` in the source. -/
def AHT10_CMD_TRIGGER : Nat := 0xAC
/-- Constant `AHT10_CMD_SOFT_RESET`, defined as `0xBA` in the source. -/
def AHT10_CMD_SOFT_RESET : Nat := 0xBA
/-- Constant `AHT10_STATUS_BUSY`, defined as `0x80` in the source. -/
def AHT10_STATUS_BUSY : Nat := 0x80
/-- Constant `AHT10_STATUS_CALIBRATED`, defined as `0x08` in the source. -/
def AHT10_STATUS_CALIBRATED : Nat := 0x08

/-- Constant `TEMP_LOW_THRESHOLD`, defined as `20.0f` in the source. -/
def TEMP_LOW_THRESHOLD : ℚ := 20
/-- Constant `TEMP_HIGH_THRESHOLD`, defined as `25.0f` in the source. -/
def TEMP_HIGH_THRESHOLD : ℚ := 25
/-- Constant `HUMIDITY_HIGH_THRESHOLD`, defined as `60.0f` in the source. -/
def HUMIDITY_HIGH_THRESHOLD : ℚ := 60

/-! Bus oracle, actions and driver environment -/

/-- Answer of the bus to one transfer: the `int` returned by `i2c_write` or
`i2c_read`, and the bytes a read delivers into the caller's buffer. -/
structure Resp where
  ret : Int
  data : List Nat

/-- One externally visible step of the driver. -/
inductive Action where
  | write (addr : Nat) (bytes : List Nat)
  | read (addr : Nat) (len : Nat)
  | sleep (ms : Nat)
  deriving DecidableEq, Repr

/-- Driver environment: bus oracle, transfers issued so far, action log. -/
structure Env where
  bus : Nat → Resp
  next : Nat
  trace : List Action

/-- Environment before the first transfer. -/
def Env.start (bus : Nat → Resp) : Env := ⟨bus, 0, []⟩

/-- Byte `i` of a response, as stored into a `uint8_t`. -/
def Resp.byte (r : Resp) (i : Nat) : Nat := r.data.getD i 0 % 256

/-- Model of `i2c_write(i2c_dev, buf, num_bytes, addr)`: logs the transfer and returns
the code the bus answers with. -/
def i2c_write (e : Env) (buf : List Nat) (num_bytes addr : Nat) : Int × Env :=
  ((e.bus e.next).ret,
   { e with next := e.next + 1, trace := e.trace ++ [Action.write addr (buf.take num_bytes)] })

/-- Model of `i2c_read(i2c_dev, buf, num_bytes, addr)`: logs the transfer, returns the
code and the buffer with its first `num_bytes` elements overwritten by the
bytes received. -/
def i2c_read (e : Env) (buf : List Nat) (num_bytes addr : Nat) : Int × List Nat × Env :=
  ((e.bus e.next).ret,
   (List.range num_bytes).map (e.bus e.next).byte ++ buf.drop num_bytes,
   { e with next := e.next + 1, trace := e.trace ++ [Action.read addr num_bytes] })

/-- Model of `k_msleep(ms)`: logs the delay. -/
def k_msleep (e : Env) (ms : Nat) : Env :=
  { e with trace := e.trace ++ [Action.sleep ms] }

/-! `aht10_init` -/

/-- Result of `aht10_init`: the returned `int` and the environment after. -/
structure InitRun where
  ret : Int
  env : Env

/-- Function `int aht10_init(void)`. -/
def aht10_init (e : Env) : InitRun :=
  let init_cmd : List Nat := [AHT10_CMD_INIT, 0x08, 0x00]
  let reset_cmd : List Nat := [AHT10_CMD_SOFT_RESET]
  let (ret, e) := i2c_write e reset_cmd 1 AHT10_I2C_ADDR
  if ret ≠ 0 then ⟨ret, e⟩ else
  let e := k_msleep e 20
  let (ret, e) := i2c_write e init_cmd 3 AHT10_I2C_ADDR
  if ret ≠ 0 then ⟨ret, e⟩ else
  let e := k_msleep e 10
  let (ret, status, e) := i2c_read e [0] 1 AHT10_I2C_ADDR
  if ret ≠ 0 then ⟨ret, e⟩ else
  if status.getD 0 0 &&& AHT10_STATUS_CALIBRATED = 0 then ⟨-1, e⟩ else
  ⟨0, e⟩

/-! `aht10_read_data` -/

/-- Left shift on `uint32_t`: `(uint32_t)x << n`. -/
def shl32 (x n : Nat) : Nat := (x <<< n) % 2 ^ 32

/-- Decode step `raw_humidity = (data[1] << 12) | (data[2] << 4) | (data[3] >> 4)` on `uint32_t`. -/
def raw_humidity (data : List Nat) : Nat :=
  shl32 (data.getD 1 0) 12 ||| shl32 (data.getD 2 0) 4 ||| (data.getD 3 0 >>> 4)

/-- Decode step `raw_temperature = ((data[3] & 0x0F) << 16) | (data[4] << 8) | data[5]` on `uint32_t`. -/
def raw_temperature (data : List Nat) : Nat :=
  shl32 (data.getD 3 0 &&& 0x0F) 16 ||| shl32 (data.getD 4 0) 8 ||| data.getD 5 0

/-- Conversion `((float)raw_humidity / 1048576.0f) * 100.0f` -/
def convert_humidity (raw : Nat) : ℚ := ((raw : ℚ) / 1048576) * 100

/-- Conversion `(((float)raw_temperature / 1048576.0f) * 200.0f) - 50.0f` -/
def convert_temperature (raw : Nat) : ℚ := (((raw : ℚ) / 1048576) * 200) - 50

/-- Result of `aht10_read_data`: the returned `int` (`none` while the busy-poll
loop is still running when the fuel ends), the caller's `*temperature` and
`*humidity` after the call, the local `data` buffer, and the environment. -/
structure ReadRun where
  ret : Option Int
  temperature : ℚ
  humidity : ℚ
  data : List Nat
  env : Env

/-- Tail of `aht10_read_data` after the busy-poll loop: the 6-byte read, the
decode and the conversion. -/
def read_frame (e : Env) (data : List Nat) (temperature humidity : ℚ) : ReadRun :=
  let (ret, data, e) := i2c_read e data 6 AHT10_I2C_ADDR
  if ret ≠ 0 then ⟨some ret, temperature, humidity, data, e⟩ else
  let raw_h := raw_humidity data
  let raw_t := raw_temperature data
  ⟨some 0, convert_temperature raw_t, convert_humidity raw_h, data, e⟩

/-- The `do { ... } while (data[0] & AHT10_STATUS_BUSY);` loop followed by the
rest of the function; one unit of fuel per iteration. -/
def poll : Nat → Env → List Nat → ℚ → ℚ → ReadRun
  | 0, e, data, temperature, humidity => ⟨none, temperature, humidity, data, e⟩
  | fuel + 1, e, data, temperature, humidity =>
    let (ret, data, e) := i2c_read e data 1 AHT10_I2C_ADDR
    if ret ≠ 0 then ⟨some ret, temperature, humidity, data, e⟩ else
    let e := if data.getD 0 0 &&& AHT10_STATUS_BUSY ≠ 0 then k_msleep e 10 else e
    if data.getD 0 0 &&& AHT10_STATUS_BUSY ≠ 0 then poll fuel e data temperature humidity
    else read_frame e data temperature humidity

/-- Function `int aht10_read_data(float *temperature, float *humidity)`; the last two
arguments are the values of `*temperature` and `*humidity` before the call. -/
def aht10_read_data (fuel : Nat) (e : Env) (temperature humidity : ℚ) : ReadRun :=
  let trigger_cmd : List Nat := [AHT10_CMD_TRIGGER, 0x33, 0x00]
  let data : List Nat := [0, 0, 0, 0, 0, 0]
  let (ret, e) := i2c_write e trigger_cmd 3 AHT10_I2C_ADDR
  if ret ≠ 0 then ⟨some ret, temperature, humidity, data, e⟩ else
  let e := k_msleep e 80
  poll fuel e data temperature humidity

/-! `control_leds` -/

/-- Logical levels of the three LED lines. -/
structure Leds where
  red : Bool
  green : Bool
  blue : Bool
  deriving DecidableEq, Repr

/-- The three LED lines of the board. -/
inductive Line where
  | red_led | green_led | blue_led
  deriving DecidableEq, Repr

/-- Model of `gpio_pin_set_dt(&led, value)`: drives one line to the given logical level. -/
def gpio_pin_set_dt (s : Leds) (l : Line) (value : Nat) : Leds :=
  match l with
  | Line.red_led => { s with red := value != 0 }
  | Line.green_led => { s with green := value != 0 }
  | Line.blue_led => { s with blue := value != 0 }

/-- Function `void control_leds(float temperature, float humidity)`, from the prior
state `s` of the lines. -/
def control_leds (s : Leds) (temperature humidity : ℚ) : Leds :=
  let s := gpio_pin_set_dt s Line.red_led 0
  let s := gpio_pin_set_dt s Line.green_led 0
  let s := gpio_pin_set_dt s Line.blue_led 0
  let s :=
    if temperature > TEMP_HIGH_THRESHOLD then gpio_pin_set_dt s Line.red_led 1
    else if temperature < TEMP_LOW_THRESHOLD then gpio_pin_set_dt s Line.blue_led 1
    else s
  let s :=
    if humidity > HUMIDITY_HIGH_THRESHOLD then gpio_pin_set_dt s Line.green_led 1
    else s
  s

/-! Logs and concrete buses used in the statements -/

/-- Log of `n` iterations of the busy-poll loop that found the sensor busy. -/
def busyRounds (n : Nat) : List Action :=
  (List.replicate n [Action.read AHT10_I2C_ADDR 1, Action.sleep 10]).flatten

/-- Bus that answers the first transfers with the given responses, in order,
and every later transfer with error code `-5` and no data. -/
def scriptBus (l : List Resp) : Nat → Resp := fun k => l.getD k ⟨-5, []⟩

/-- Bus on which every transfer succeeds, the first status read finds the
sensor ready, and the 6-byte read that follows delivers `frame`. -/
def frameBus (frame : List Nat) : Nat → Resp :=
  scriptBus [⟨0, []⟩, ⟨0, [0x00]⟩, ⟨0, frame⟩]

/-- Bus on which every transfer succeeds and every read delivers the status
byte `0x80` (busy). -/
def alwaysBusy : Nat → Resp := fun _ => ⟨0, [0x80]⟩

/-! `send_uart_data` -/

/-- Argument passed to a `printf`-style conversion: a `double` (a promoted
`float`, read as a rational), a `long long`, or an `int`. -/
inductive Arg where
  | double (x : ℚ)
  | llong (n : Int)
  | int (n : Int)

/-- Conversions `%d` and `%lld`: an optional minus sign and the decimal digits
of the magnitude. -/
def fmt_d (n : Int) : List Char :=
  (if n < 0 then ['-'] else []) ++ Nat.toDigits 10 n.natAbs

/-- Conversion `%.2f`: an optional minus sign, the decimal digits of the whole
part, a point and two fraction digits.  The C library rounds the magnitude to
hundredths; `rnd q` is that number of hundredths for a magnitude `q`. -/
def fmt_f2 (rnd : ℚ → Nat) (x : ℚ) : List Char :=
  (if x < 0 then ['-'] else []) ++ Nat.toDigits 10 (rnd |x| / 100) ++
    ['.', Nat.digitChar (rnd |x| % 100 / 10), Nat.digitChar (rnd |x| % 10)]

/-- Conversion `%02d`: as `%d`, with zeros between the sign and the digits up to
a total width of 2. -/
def fmt_02d (n : Int) : List Char :=
  (if n < 0 then ['-'] else []) ++
    List.replicate (2 - ((if n < 0 then 1 else 0) + (Nat.toDigits 10 n.natAbs).length)) '0' ++
    Nat.toDigits 10 n.natAbs

/-- Expansion of a format string over its arguments, for the conversions the
source uses: `%.2f`, `%lld`, `%d`, `%02d`, `%%`; every other character is
copied. -/
def cformat (rnd : ℚ → Nat) : List Char → List Arg → List Char
  | '%' :: '.' :: '2' :: 'f' :: fmt, Arg.double x :: args => fmt_f2 rnd x ++ cformat rnd fmt args
  | '%' :: 'l' :: 'l' :: 'd' :: fmt, Arg.llong n :: args => fmt_d n ++ cformat rnd fmt args
  | '%' :: '0' :: '2' :: 'd' :: fmt, Arg.int n :: args => fmt_02d n ++ cformat rnd fmt args
  | '%' :: 'd' :: fmt, Arg.int n :: args => fmt_d n ++ cformat rnd fmt args
  | '%' :: '%' :: fmt, args => '%' :: cformat rnd fmt args
  | c :: fmt, args => c :: cformat rnd fmt args
  | [], _ => []

/-- Model of `snprintf(buf, size, fmt, ...)`: returns the length of the whole
expansion and the buffer, which receives at most `size - 1` characters of it
followed by a NUL. -/
def snprintf (rnd : ℚ → Nat) (buf : List Char) (size : Nat) (fmt : List Char)
    (args : List Arg) : Nat × List Char :=
  ((cformat rnd fmt args).length,
   (cformat rnd fmt args).take (size - 1) ++ [Char.ofNat 0] ++
     buf.drop (min (cformat rnd fmt args).length (size - 1) + 1))

/-- State around `send_uart_data`: the uptime clock as an oracle (`clock k` is
the value of the `k`-th call of `k_uptime_get`), the calls made so far, and the
bytes handed to `uart_poll_out` so far. -/
structure Sys where
  clock : Nat → Int
  ticks : Nat
  uart : List Char

/-- Model of `k_uptime_get()`. -/
def k_uptime_get (s : Sys) : Int × Sys :=
  (s.clock s.ticks, { s with ticks := s.ticks + 1 })

/-- Model of `uart_poll_out(uart_dev, c)`. -/
def uart_poll_out (s : Sys) (c : Char) : Sys :=
  { s with uart := s.uart ++ [c] }

/-- Loop `for (int i = 0; i < len; i++) uart_poll_out(uart_dev, uart_buffer[i]);`
with `k` iterations left from index `i`; `none` when an index is outside the
buffer. -/
def uart_send : Nat → Nat → List Char → Sys → Option Sys
  | 0, _, _, s => some s
  | k + 1, i, uart_buffer, s =>
    match uart_buffer[i]? with
    | none => none
    | some c => uart_send k (i + 1) uart_buffer (uart_poll_out s c)

/-- Format string of the structured line. -/
def json_fmt : List Char :=
  "\x7b\"temperature\":%.2f,\"humidity\":%.2f,\"timestamp\":%lld\x7d\r\n".toList

/-- Format string of the human-readable line; the degree sign is the two bytes
`0xC2 0xB0` of the source file. -/
def human_fmt : List Char :=
  "TEMP: %.2f\xC2\xB0C, HUMID: %.2f%%, TIME: %lldms\r\n".toList

/-- Function `void send_uart_data(float temperature, float humidity)`; `none`
when a send loop reads outside `uart_buffer`. -/
def send_uart_data (rnd : ℚ → Nat) (s : Sys) (temperature humidity : ℚ) : Option Sys :=
  let uart_buffer : List Char := List.replicate 128 (Char.ofNat 0)
  let (ts, s) := k_uptime_get s
  let (len, uart_buffer) := snprintf rnd uart_buffer 128 json_fmt
    [Arg.double temperature, Arg.double humidity, Arg.llong ts]
  match uart_send len 0 uart_buffer s with
  | none => none
  | some s =>
    let (ts, s) := k_uptime_get s
    let (len, uart_buffer) := snprintf rnd uart_buffer 128 human_fmt
      [Arg.double temperature, Arg.double humidity, Arg.llong ts]
    uart_send len 0 uart_buffer s

/-- Rounding of a magnitude to the nearest hundredth, halves upward. -/
def round_hundredths (q : ℚ) : Nat := ⌊100 * q + 1 / 2⌋.toNat

/-- Number denoted by a string of decimal digits. -/
def digits_value (l : List Char) : Nat :=
  l.foldl (fun acc c => 10 * acc + (c.toNat - 48)) 0

/-- Integer denoted by an optional minus sign followed by decimal digits. -/
def read_d : List Char → Int
  | '-' :: l => -(digits_value l : Int)
  | l => (digits_value l : Int)

/-! Display step of the plain reader's main loop -/

/-- Cast `(int)x` of a `float`: truncation toward zero. -/
def int_of_float (x : ℚ) : Int := if 0 ≤ x then ⌊x⌋ else ⌈x⌉

/-- Integers computed by the `ret == 0` branch of the plain reader's loop:
`temp_int`, `humid_int` and the four `printk` arguments `temp_int / 100`,
`temp_int % 100`, `humid_int / 100`, `humid_int % 100` (C division truncates
toward zero and the remainder takes the sign of the dividend). -/
structure Display where
  temp_int : Int
  humid_int : Int
  temp_whole : Int
  temp_frac : Int
  humid_whole : Int
  humid_frac : Int
  deriving DecidableEq, Repr

/-- The display integers of `main` in `i2c_aht10/src/main.c`. -/
def main_display (temperature humidity : ℚ) : Display :=
  let temp_int := int_of_float (temperature * 100)
  let humid_int := int_of_float (humidity * 100)
  { temp_int := temp_int, humid_int := humid_int,
    temp_whole := Int.tdiv temp_int 100, temp_frac := Int.tmod temp_int 100,
    humid_whole := Int.tdiv humid_int 100, humid_frac := Int.tmod humid_int 100 }

/-- Console text of the `ret == 0` branch of the plain reader's loop: its four
`printk` calls, with the bytes of the source file in the format strings. -/
def main_report (rnd : ℚ → Nat) (temperature humidity : ℚ) : List Char :=
  let d := main_display temperature humidity
  cformat rnd "Temperature: %d.%02d\xC3\x82\xC2\xB0C\n".toList
      [Arg.int d.temp_whole, Arg.int d.temp_frac] ++
    cformat rnd "Humidity: %d.%02d%%\n".toList
      [Arg.int d.humid_whole, Arg.int d.humid_frac] ++
    cformat rnd "Raw temp: %d, Raw humid: %d\n".toList
      [Arg.int d.temp_int, Arg.int d.humid_int] ++
    cformat rnd "------------------------\n".toList []

/-! Decode arithmetic -/

theorem shl32_of_lt {x n : Nat} (h : x * 2 ^ n < 2 ^ 32) : shl32 x n = x * 2 ^ n := by
  unfold shl32
  rw [Nat.shiftLeft_eq, Nat.mod_eq_of_lt h]

theorem lor_eq_add (i a b : Nat) (hb : b < 2 ^ i) : a * 2 ^ i ||| b = a * 2 ^ i + b := by
  rw [Nat.mul_comm a, ← Nat.mul_add_lt_is_or hb a]

theorem and_15_eq_mod (x : Nat) : x &&& 0x0F = x % 16 :=
  Nat.and_pow_two_sub_one_eq_mod x 4

theorem raw_humidity_eq (b0 b1 b2 b3 b4 b5 : Nat) (h1 : b1 < 256) (h2 : b2 < 256) (h3 : b3 < 256) :
    raw_humidity [b0, b1, b2, b3, b4, b5] = b1 * 4096 + b2 * 16 + b3 / 16 := by
  have e1 : shl32 b1 12 = b1 * 2 ^ 12 := shl32_of_lt (by omega)
  have e2 : shl32 b2 4 = b2 * 2 ^ 4 := shl32_of_lt (by omega)
  have s1 : b1 * 2 ^ 12 ||| b2 * 2 ^ 4 = b1 * 2 ^ 12 + b2 * 2 ^ 4 := lor_eq_add 12 b1 _ (by omega)
  have s2 : (b1 * 2 ^ 8 + b2) * 2 ^ 4 ||| b3 / 2 ^ 4 = (b1 * 2 ^ 8 + b2) * 2 ^ 4 + b3 / 2 ^ 4 :=
    lor_eq_add 4 _ _ (by omega)
  have e3 : b1 * 2 ^ 12 + b2 * 2 ^ 4 = (b1 * 2 ^ 8 + b2) * 2 ^ 4 := by ring
  simp only [raw_humidity, List.getD_cons_succ, List.getD_cons_zero, e1, e2, s1, e3,
    Nat.shiftRight_eq_div_pow, s2]
  omega

theorem raw_temperature_eq (b0 b1 b2 b3 b4 b5 : Nat) (h4 : b4 < 256) (h5 : b5 < 256) :
    raw_temperature [b0, b1, b2, b3, b4, b5] = b3 % 16 * 65536 + b4 * 256 + b5 := by
  have h3 : b3 % 16 < 16 := Nat.mod_lt _ (by decide)
  have e1 : shl32 (b3 % 16) 16 = b3 % 16 * 2 ^ 16 := shl32_of_lt (by omega)
  have e2 : shl32 b4 8 = b4 * 2 ^ 8 := shl32_of_lt (by omega)
  have s1 : b3 % 16 * 2 ^ 16 ||| b4 * 2 ^ 8 = b3 % 16 * 2 ^ 16 + b4 * 2 ^ 8 :=
    lor_eq_add 16 _ _ (by omega)
  have s2 : (b3 % 16 * 2 ^ 8 + b4) * 2 ^ 8 ||| b5 = (b3 % 16 * 2 ^ 8 + b4) * 2 ^ 8 + b5 :=
    lor_eq_add 8 _ _ (by omega)
  have e3 : b3 % 16 * 2 ^ 16 + b4 * 2 ^ 8 = (b3 % 16 * 2 ^ 8 + b4) * 2 ^ 8 := by ring
  simp only [raw_temperature, List.getD_cons_succ, List.getD_cons_zero, and_15_eq_mod, e1, e2, s1,
    e3, s2]
  omega

/-! The busy-poll loop -/

theorem busyRounds_zero : busyRounds 0 = [] := rfl

theorem busyRounds_succ (n : Nat) :
    busyRounds (n + 1) =
      Action.read AHT10_I2C_ADDR 1 :: Action.sleep 10 :: busyRounds n := by
  simp [busyRounds, List.replicate_succ]

theorem i2c_read_one_length (e : Env) (d : List Nat) (hd : d.length = 6) :
    (i2c_read e d 1 AHT10_I2C_ADDR).2.1.length = 6 := by
  simp [i2c_read, hd]

theorem read_frame_fail (e : Env) (d : List Nat) (t h : ℚ) (hr : (e.bus e.next).ret ≠ 0) :
    (read_frame e d t h).ret = some (e.bus e.next).ret ∧
    (read_frame e d t h).env = ⟨e.bus, e.next + 1, e.trace ++ [Action.read AHT10_I2C_ADDR 6]⟩ ∧
    (read_frame e d t h).temperature = t ∧ (read_frame e d t h).humidity = h := by
  simp [read_frame, i2c_read, hr]

theorem read_frame_ok (e : Env) (d : List Nat) (t h : ℚ) (hd : d.length = 6)
    (hr : (e.bus e.next).ret = 0) :
    (read_frame e d t h).ret = some 0 ∧
    (read_frame e d t h).env = ⟨e.bus, e.next + 1, e.trace ++ [Action.read AHT10_I2C_ADDR 6]⟩ ∧
    (read_frame e d t h).data = (List.range 6).map (e.bus e.next).byte ∧
    (read_frame e d t h).temperature = convert_temperature (raw_temperature ((List.range 6).map (e.bus e.next).byte)) ∧
    (read_frame e d t h).humidity = convert_humidity (raw_humidity ((List.range 6).map (e.bus e.next).byte)) := by
  have hdrop : d.drop 6 = [] := List.drop_eq_nil_of_le (by omega)
  simp [read_frame, i2c_read, hr, hdrop]

theorem poll_succ_fail (fuel : Nat) (e : Env) (d : List Nat) (t h : ℚ)
    (hr : (e.bus e.next).ret ≠ 0) :
    poll (fuel + 1) e d t h =
      ⟨some (e.bus e.next).ret, t, h, (i2c_read e d 1 AHT10_I2C_ADDR).2.1,
        (i2c_read e d 1 AHT10_I2C_ADDR).2.2⟩ := by
  simp [poll, i2c_read, hr]

theorem poll_succ_busy (fuel : Nat) (e : Env) (d : List Nat) (t h : ℚ)
    (hr : (e.bus e.next).ret = 0)
    (hb : (e.bus e.next).byte 0 &&& AHT10_STATUS_BUSY ≠ 0) :
    poll (fuel + 1) e d t h =
      poll fuel (k_msleep (i2c_read e d 1 AHT10_I2C_ADDR).2.2 10)
        (i2c_read e d 1 AHT10_I2C_ADDR).2.1 t h := by
  simp [poll, i2c_read, hr, hb, List.range_succ]

theorem poll_succ_ready (fuel : Nat) (e : Env) (d : List Nat) (t h : ℚ)
    (hr : (e.bus e.next).ret = 0)
    (hb : (e.bus e.next).byte 0 &&& AHT10_STATUS_BUSY = 0) :
    poll (fuel + 1) e d t h =
      read_frame (i2c_read e d 1 AHT10_I2C_ADDR).2.2 (i2c_read e d 1 AHT10_I2C_ADDR).2.1 t h := by
  simp [poll, i2c_read, hr, hb, List.range_succ]

/-- Complete case analysis of the busy-poll loop and what follows it. -/
theorem poll_cases (fuel : Nat) : ∀ (e : Env) (d : List Nat) (t h : ℚ), d.length = 6 →
    ∃ n, n ≤ fuel ∧
      (∀ j, j < n → (e.bus (e.next + j)).ret = 0 ∧
        (e.bus (e.next + j)).byte 0 &&& AHT10_STATUS_BUSY ≠ 0) ∧
      ( (n = fuel ∧ (poll fuel e d t h).ret = none ∧
          (poll fuel e d t h).env = ⟨e.bus, e.next + n, e.trace ++ busyRounds n⟩ ∧
          (poll fuel e d t h).temperature = t ∧ (poll fuel e d t h).humidity = h)
      ∨ (n < fuel ∧ (e.bus (e.next + n)).ret ≠ 0 ∧
          (poll fuel e d t h).ret = some (e.bus (e.next + n)).ret ∧
          (poll fuel e d t h).env =
            ⟨e.bus, e.next + n + 1, e.trace ++ busyRounds n ++ [Action.read AHT10_I2C_ADDR 1]⟩ ∧
          (poll fuel e d t h).temperature = t ∧ (poll fuel e d t h).humidity = h)
      ∨ (n < fuel ∧ (e.bus (e.next + n)).ret = 0 ∧
          (e.bus (e.next + n)).byte 0 &&& AHT10_STATUS_BUSY = 0 ∧
          (e.bus (e.next + n + 1)).ret ≠ 0 ∧
          (poll fuel e d t h).ret = some (e.bus (e.next + n + 1)).ret ∧
          (poll fuel e d t h).env =
            ⟨e.bus, e.next + n + 2, e.trace ++ busyRounds n ++
              [Action.read AHT10_I2C_ADDR 1, Action.read AHT10_I2C_ADDR 6]⟩ ∧
          (poll fuel e d t h).temperature = t ∧ (poll fuel e d t h).humidity = h)
      ∨ (n < fuel ∧ (e.bus (e.next + n)).ret = 0 ∧
          (e.bus (e.next + n)).byte 0 &&& AHT10_STATUS_BUSY = 0 ∧
          (e.bus (e.next + n + 1)).ret = 0 ∧
          (poll fuel e d t h).ret = some 0 ∧
          (poll fuel e d t h).env =
            ⟨e.bus, e.next + n + 2, e.trace ++ busyRounds n ++
              [Action.read AHT10_I2C_ADDR 1, Action.read AHT10_I2C_ADDR 6]⟩ ∧
          (poll fuel e d t h).data = (List.range 6).map (e.bus (e.next + n + 1)).byte ∧
          (poll fuel e d t h).temperature =
            convert_temperature (raw_temperature ((List.range 6).map (e.bus (e.next + n + 1)).byte)) ∧
          (poll fuel e d t h).humidity =
            convert_humidity (raw_humidity ((List.range 6).map (e.bus (e.next + n + 1)).byte))) ) := by
  induction fuel with
  | zero =>
    intro e d t h _
    exact ⟨0, le_refl _, fun j hj => absurd hj (Nat.not_lt_zero j),
      Or.inl ⟨rfl, rfl, by simp [poll, busyRounds_zero], rfl, rfl⟩⟩
  | succ fuel ih =>
    intro e d t h hd
    by_cases hr : (e.bus e.next).ret = 0
    · by_cases hb : (e.bus e.next).byte 0 &&& AHT10_STATUS_BUSY = 0
      · -- ready: the frame is read next
        have hlen := i2c_read_one_length e d hd
        rw [poll_succ_ready fuel e d t h hr hb]
        refine ⟨0, Nat.zero_le _, fun j hj => absurd hj (Nat.not_lt_zero j), Or.inr (Or.inr ?_)⟩
        by_cases hf : (e.bus (e.next + 1)).ret = 0
        · refine Or.inr ?_
          have := read_frame_ok (i2c_read e d 1 AHT10_I2C_ADDR).2.2
            (i2c_read e d 1 AHT10_I2C_ADDR).2.1 t h hlen (by simpa [i2c_read] using hf)
          simpa [i2c_read, hr, hb, hf, busyRounds_zero] using this
        · refine Or.inl ?_
          have := read_frame_fail (i2c_read e d 1 AHT10_I2C_ADDR).2.2
            (i2c_read e d 1 AHT10_I2C_ADDR).2.1 t h (by simpa [i2c_read] using hf)
          simpa [i2c_read, hr, hb, hf, busyRounds_zero] using this
      · -- busy: sleep and iterate
        have hlen := i2c_read_one_length e d hd
        rw [poll_succ_busy fuel e d t h hr hb]
        obtain ⟨n, hn, hbusy, hcase⟩ := ih (k_msleep (i2c_read e d 1 AHT10_I2C_ADDR).2.2 10)
          (i2c_read e d 1 AHT10_I2C_ADDR).2.1 t h hlen
        have hnext : (k_msleep (i2c_read e d 1 AHT10_I2C_ADDR).2.2 10).next = e.next + 1 := rfl
        have hbus : (k_msleep (i2c_read e d 1 AHT10_I2C_ADDR).2.2 10).bus = e.bus := rfl
        have htr : (k_msleep (i2c_read e d 1 AHT10_I2C_ADDR).2.2 10).trace =
            e.trace ++ [Action.read AHT10_I2C_ADDR 1, Action.sleep 10] := by
          simp [k_msleep, i2c_read]
        rw [hnext, hbus, htr] at hcase
        simp only [hnext, hbus] at hbusy
        have hidx : ∀ k, e.next + 1 + k = e.next + (k + 1) := fun k => by omega
        refine ⟨n + 1, Nat.succ_le_succ hn, ?_, ?_⟩
        · intro j hj
          cases j with
          | zero => exact ⟨hr, hb⟩
          | succ j => simpa [hidx] using hbusy j (by omega)
        · simp only [busyRounds_succ, hidx, List.append_assoc, List.cons_append,
            List.nil_append, Nat.add_lt_add_iff_right, Nat.add_right_cancel_iff] at hcase ⊢
          simpa [Nat.add_assoc, Nat.add_comm 1] using hcase
    · refine ⟨0, Nat.zero_le _, fun j hj => absurd hj (Nat.not_lt_zero j), Or.inr (Or.inl ?_)⟩
      rw [poll_succ_fail fuel e d t h hr]
      simp [i2c_read, hr, busyRounds_zero]

/-! `aht10_read_data` from a fresh environment -/

theorem read_trigger_fail (fuel : Nat) (bus : Nat → Resp) (t h : ℚ) (h0 : (bus 0).ret ≠ 0) :
    aht10_read_data fuel (Env.start bus) t h =
      ⟨some (bus 0).ret, t, h, [0, 0, 0, 0, 0, 0],
        ⟨bus, 1, [Action.write AHT10_I2C_ADDR [AHT10_CMD_TRIGGER, 0x33, 0x00]]⟩⟩ := by
  simp [aht10_read_data, i2c_write, Env.start, h0]

theorem read_trigger_ok (fuel : Nat) (bus : Nat → Resp) (t h : ℚ) (h0 : (bus 0).ret = 0) :
    aht10_read_data fuel (Env.start bus) t h =
      poll fuel ⟨bus, 1, [Action.write AHT10_I2C_ADDR [AHT10_CMD_TRIGGER, 0x33, 0x00],
        Action.sleep 80]⟩ [0, 0, 0, 0, 0, 0] t h := by
  simp [aht10_read_data, i2c_write, k_msleep, Env.start, h0]

/-- Complete case analysis of `aht10_read_data` on a fresh environment: the
trigger write fails, or `n` status reads find the sensor busy and then the fuel
ends, a status read fails, the frame read fails, or the frame is decoded. -/
theorem read_cases (fuel : Nat) (bus : Nat → Resp) (t h : ℚ) :
    ∀ r, r = aht10_read_data fuel (Env.start bus) t h →
    ((bus 0).ret ≠ 0 ∧ r.ret = some (bus 0).ret ∧
      r.env = ⟨bus, 1, [Action.write AHT10_I2C_ADDR [AHT10_CMD_TRIGGER, 0x33, 0x00]]⟩ ∧
      r.temperature = t ∧ r.humidity = h) ∨
    ((bus 0).ret = 0 ∧ ∃ n, n ≤ fuel ∧
      (∀ j, j < n → (bus (1 + j)).ret = 0 ∧ (bus (1 + j)).byte 0 &&& AHT10_STATUS_BUSY ≠ 0) ∧
      ( (n = fuel ∧ r.ret = none ∧
          r.env = ⟨bus, 1 + n, [Action.write AHT10_I2C_ADDR [AHT10_CMD_TRIGGER, 0x33, 0x00],
            Action.sleep 80] ++ busyRounds n⟩ ∧
          r.temperature = t ∧ r.humidity = h)
      ∨ (n < fuel ∧ (bus (1 + n)).ret ≠ 0 ∧ r.ret = some (bus (1 + n)).ret ∧
          r.env = ⟨bus, 1 + n + 1, [Action.write AHT10_I2C_ADDR [AHT10_CMD_TRIGGER, 0x33, 0x00],
            Action.sleep 80] ++ busyRounds n ++ [Action.read AHT10_I2C_ADDR 1]⟩ ∧
          r.temperature = t ∧ r.humidity = h)
      ∨ (n < fuel ∧ (bus (1 + n)).ret = 0 ∧ (bus (1 + n)).byte 0 &&& AHT10_STATUS_BUSY = 0 ∧
          (bus (1 + n + 1)).ret ≠ 0 ∧ r.ret = some (bus (1 + n + 1)).ret ∧
          r.env = ⟨bus, 1 + n + 2, [Action.write AHT10_I2C_ADDR [AHT10_CMD_TRIGGER, 0x33, 0x00],
            Action.sleep 80] ++ busyRounds n ++
            [Action.read AHT10_I2C_ADDR 1, Action.read AHT10_I2C_ADDR 6]⟩ ∧
          r.temperature = t ∧ r.humidity = h)
      ∨ (n < fuel ∧ (bus (1 + n)).ret = 0 ∧ (bus (1 + n)).byte 0 &&& AHT10_STATUS_BUSY = 0 ∧
          (bus (1 + n + 1)).ret = 0 ∧ r.ret = some 0 ∧
          r.env = ⟨bus, 1 + n + 2, [Action.write AHT10_I2C_ADDR [AHT10_CMD_TRIGGER, 0x33, 0x00],
            Action.sleep 80] ++ busyRounds n ++
            [Action.read AHT10_I2C_ADDR 1, Action.read AHT10_I2C_ADDR 6]⟩ ∧
          r.data = (List.range 6).map (bus (1 + n + 1)).byte ∧
          r.temperature =
            convert_temperature (raw_temperature ((List.range 6).map (bus (1 + n + 1)).byte)) ∧
          r.humidity =
            convert_humidity (raw_humidity ((List.range 6).map (bus (1 + n + 1)).byte))) )) := by
  intro r hr
  by_cases h0 : (bus 0).ret = 0
  · right
    rw [read_trigger_ok fuel bus t h h0] at hr
    subst hr
    exact ⟨h0, poll_cases fuel ⟨bus, 1, _⟩ [0, 0, 0, 0, 0, 0] t h rfl⟩
  · left
    rw [read_trigger_fail fuel bus t h h0] at hr
    subst hr
    exact ⟨h0, rfl, rfl, rfl, rfl⟩

theorem busy_iff_testBit (b : Nat) : b &&& AHT10_STATUS_BUSY ≠ 0 ↔ b.testBit 7 = true := by
  have h : AHT10_STATUS_BUSY = 2 ^ 7 := rfl
  rw [h, Nat.and_two_pow]
  cases b.testBit 7 <;> simp

theorem calibrated_iff_testBit (b : Nat) :
    b &&& AHT10_STATUS_CALIBRATED ≠ 0 ↔ b.testBit 3 = true := by
  have h : AHT10_STATUS_CALIBRATED = 2 ^ 3 := rfl
  rw [h, Nat.and_two_pow]
  cases b.testBit 3 <;> simp

theorem range6_map (f : Nat → Nat) : (List.range 6).map f = [f 0, f 1, f 2, f 3, f 4, f 5] := rfl

theorem byte_lt (r : Resp) (i : Nat) : r.byte i < 256 := Nat.mod_lt _ (by decide)

/-- A run that returns 0 polled `n` busy status bytes, then a ready one, then
read and decoded the frame answered by transfer `n + 2`. -/
theorem read_success (fuel : Nat) (bus : Nat → Resp) (t h : ℚ)
    (hret : (aht10_read_data fuel (Env.start bus) t h).ret = some 0) :
    ∃ n, n < fuel ∧ (∀ k, k ≤ n + 2 → (bus k).ret = 0) ∧
      (∀ j, j < n → (bus (1 + j)).byte 0 &&& AHT10_STATUS_BUSY ≠ 0) ∧
      (bus (n + 1)).byte 0 &&& AHT10_STATUS_BUSY = 0 ∧
      (aht10_read_data fuel (Env.start bus) t h).env =
        ⟨bus, n + 3, [Action.write AHT10_I2C_ADDR [AHT10_CMD_TRIGGER, 0x33, 0x00],
          Action.sleep 80] ++ busyRounds n ++
          [Action.read AHT10_I2C_ADDR 1, Action.read AHT10_I2C_ADDR 6]⟩ ∧
      (aht10_read_data fuel (Env.start bus) t h).data = (List.range 6).map (bus (n + 2)).byte ∧
      (aht10_read_data fuel (Env.start bus) t h).temperature =
        convert_temperature (raw_temperature ((List.range 6).map (bus (n + 2)).byte)) ∧
      (aht10_read_data fuel (Env.start bus) t h).humidity =
        convert_humidity (raw_humidity ((List.range 6).map (bus (n + 2)).byte)) := by
  rcases read_cases fuel bus t h _ rfl with ⟨h0, hr, -⟩ | ⟨h0, n, -, hbusy, hc⟩
  · rw [hr] at hret
    exact absurd (Option.some.inj hret) h0
  · rcases hc with ⟨-, hr, -⟩ | ⟨-, hne, hr, -⟩ | ⟨-, -, -, hne, hr, -⟩ |
      ⟨hn, hs, hb, hf, -, henv, hdata, htemp, hhum⟩
    · rw [hr] at hret; exact absurd hret (by simp)
    · rw [hr] at hret; exact absurd (Option.some.inj hret) hne
    · rw [hr] at hret; exact absurd (Option.some.inj hret) hne
    · have e1 : 1 + n = n + 1 := Nat.add_comm 1 n
      have e2 : 1 + n + 1 = n + 2 := by omega
      have e3 : 1 + n + 2 = n + 3 := by omega
      rw [e1] at hs hb
      rw [e2] at hf hdata htemp hhum
      rw [e3] at henv
      refine ⟨n, hn, ?_, fun j hj => (hbusy j hj).2, hb, henv, hdata, htemp, hhum⟩
      intro k hk
      rcases Nat.eq_zero_or_pos k with hk0 | hkpos
      · rw [hk0]; exact h0
      · by_cases hkn : k ≤ n
        · have := (hbusy (k - 1) (by omega)).1
          rwa [show 1 + (k - 1) = k by omega] at this
        · by_cases hk1 : k = n + 1
          · rw [hk1]; exact hs
          · rw [show k = n + 2 by omega]; exact hf

theorem raw_humidity_lt (r : Resp) : raw_humidity ((List.range 6).map r.byte) < 2 ^ 20 := by
  rw [range6_map, raw_humidity_eq _ _ _ _ _ _ (byte_lt r 1) (byte_lt r 2) (byte_lt r 3)]
  have := byte_lt r 1
  have := byte_lt r 2
  have := byte_lt r 3
  omega

theorem raw_temperature_lt (r : Resp) : raw_temperature ((List.range 6).map r.byte) < 2 ^ 20 := by
  rw [range6_map, raw_temperature_eq _ _ _ _ _ _ (byte_lt r 4) (byte_lt r 5)]
  have := byte_lt r 4
  have := byte_lt r 5
  omega

theorem convert_humidity_bounds (raw : Nat) (h : raw < 2 ^ 20) :
    0 ≤ convert_humidity raw ∧ convert_humidity raw < 100 := by
  have h1 : (raw : ℚ) < 1048576 := by exact_mod_cast h
  have h0 : (0 : ℚ) ≤ raw := Nat.cast_nonneg raw
  unfold convert_humidity
  constructor
  · positivity
  · rw [div_mul_eq_mul_div, div_lt_iff₀ (by norm_num)]
    linarith

theorem convert_temperature_bounds (raw : Nat) (h : raw < 2 ^ 20) :
    -50 ≤ convert_temperature raw ∧ convert_temperature raw < 150 := by
  have h1 : (raw : ℚ) < 1048576 := by exact_mod_cast h
  have h0 : (0 : ℚ) ≤ raw := Nat.cast_nonneg raw
  unfold convert_temperature
  constructor
  · have : (0 : ℚ) ≤ (raw : ℚ) / 1048576 * 200 := by positivity
    linarith
  · have : (raw : ℚ) / 1048576 * 200 < 200 := by
      rw [div_mul_eq_mul_div, div_lt_iff₀ (by norm_num)]
      linarith
    linarith

theorem read_frameBus (frame : List Nat) (t h : ℚ) :
    aht10_read_data 1 (Env.start (frameBus frame)) t h =
      ⟨some 0,
        convert_temperature (raw_temperature ((List.range 6).map (Resp.byte ⟨0, frame⟩))),
        convert_humidity (raw_humidity ((List.range 6).map (Resp.byte ⟨0, frame⟩))),
        (List.range 6).map (Resp.byte ⟨0, frame⟩),
        ⟨frameBus frame, 3,
          [Action.write AHT10_I2C_ADDR [AHT10_CMD_TRIGGER, 0x33, 0x00], Action.sleep 80,
            Action.read AHT10_I2C_ADDR 1, Action.read AHT10_I2C_ADDR 6]⟩⟩ := by
  simp [aht10_read_data, poll, read_frame, i2c_read, i2c_write, k_msleep, Env.start, frameBus,
    scriptBus, Resp.byte, AHT10_STATUS_BUSY, List.range_succ]

theorem frame_bytes (b0 b1 b2 b3 b4 b5 : Nat) (h0 : b0 < 256) (h1 : b1 < 256) (h2 : b2 < 256)
    (h3 : b3 < 256) (h4 : b4 < 256) (h5 : b5 < 256) :
    (List.range 6).map (Resp.byte ⟨0, [b0, b1, b2, b3, b4, b5]⟩) = [b0, b1, b2, b3, b4, b5] := by
  simp [range6_map, Resp.byte, Nat.mod_eq_of_lt, h0, h1, h2, h3, h4, h5]

/-- C1: for every 6-byte frame `b0..b5` the decode step of `aht10_read_data`
computes `raw_humidity = b1*4096 + b2*16 + b3/16` and
`raw_temperature = (b3 mod 16)*65536 + b4*256 + b5`; both are below `2^20`,
neither depends on `b0`, and a run of `aht10_read_data` that receives the frame
returns 0 with the Reading converted from these two values.  The frame
`[0x00,0x19,0x99,0x9A,0x66,0x66]` gives `0x19999 = 104857` and
`0xA6666 = 681574`, and its Reading is within 0.01 of `104857/2^20*100` and
`681574/2^20*200 - 50`. -/
theorem C1_decode_frame (b0 b1 b2 b3 b4 b5 : Nat) (h0 : b0 < 256) (h1 : b1 < 256)
    (h2 : b2 < 256) (h3 : b3 < 256) (h4 : b4 < 256) (h5 : b5 < 256) :
    raw_humidity [b0, b1, b2, b3, b4, b5] = b1 * 4096 + b2 * 16 + b3 / 16 ∧
    raw_temperature [b0, b1, b2, b3, b4, b5] = b3 % 16 * 65536 + b4 * 256 + b5 ∧
    raw_humidity [b0, b1, b2, b3, b4, b5] < 2 ^ 20 ∧
    raw_temperature [b0, b1, b2, b3, b4, b5] < 2 ^ 20 ∧
    (∀ c0 : Nat, raw_humidity [c0, b1, b2, b3, b4, b5] = raw_humidity [b0, b1, b2, b3, b4, b5] ∧
      raw_temperature [c0, b1, b2, b3, b4, b5] = raw_temperature [b0, b1, b2, b3, b4, b5]) ∧
    (∀ t h : ℚ,
      (aht10_read_data 1 (Env.start (frameBus [b0, b1, b2, b3, b4, b5])) t h).ret = some 0 ∧
      (aht10_read_data 1 (Env.start (frameBus [b0, b1, b2, b3, b4, b5])) t h).data =
        [b0, b1, b2, b3, b4, b5] ∧
      (aht10_read_data 1 (Env.start (frameBus [b0, b1, b2, b3, b4, b5])) t h).humidity =
        convert_humidity (b1 * 4096 + b2 * 16 + b3 / 16) ∧
      (aht10_read_data 1 (Env.start (frameBus [b0, b1, b2, b3, b4, b5])) t h).temperature =
        convert_temperature (b3 % 16 * 65536 + b4 * 256 + b5)) ∧
    raw_humidity [0x00, 0x19, 0x99, 0x9A, 0x66, 0x66] = 0x19999 ∧ 0x19999 = 104857 ∧
    raw_temperature [0x00, 0x19, 0x99, 0x9A, 0x66, 0x66] = 0xA6666 ∧ 0xA6666 = 681574 ∧
    |(aht10_read_data 1 (Env.start (frameBus [0x00, 0x19, 0x99, 0x9A, 0x66, 0x66])) 0 0).humidity
      - (104857 : ℚ) / 2 ^ 20 * 100| ≤ 1 / 100 ∧
    |(aht10_read_data 1 (Env.start (frameBus [0x00, 0x19, 0x99, 0x9A, 0x66, 0x66])) 0 0).temperature
      - ((681574 : ℚ) / 2 ^ 20 * 200 - 50)| ≤ 1 / 100 := by
  have eh := raw_humidity_eq b0 b1 b2 b3 b4 b5 h1 h2 h3
  have et := raw_temperature_eq b0 b1 b2 b3 b4 b5 h4 h5
  have wh : raw_humidity [0x00, 0x19, 0x99, 0x9A, 0x66, 0x66] = 104857 :=
    raw_humidity_eq _ _ _ _ _ _ (by decide) (by decide) (by decide)
  have wt : raw_temperature [0x00, 0x19, 0x99, 0x9A, 0x66, 0x66] = 681574 :=
    raw_temperature_eq _ _ _ _ _ _ (by decide) (by decide)
  have wf := frame_bytes 0x00 0x19 0x99 0x9A 0x66 0x66 (by decide) (by decide) (by decide)
    (by decide) (by decide) (by decide)
  refine ⟨eh, et, ?_, ?_, ?_, ?_, wh, rfl, wt, rfl, ?_, ?_⟩
  · rw [eh]; omega
  · rw [et]; omega
  · intro c0
    rw [raw_humidity_eq c0 b1 b2 b3 b4 b5 h1 h2 h3, raw_temperature_eq c0 b1 b2 b3 b4 b5 h4 h5,
      eh, et]
    exact ⟨rfl, rfl⟩
  · intro t h
    rw [read_frameBus, frame_bytes b0 b1 b2 b3 b4 b5 h0 h1 h2 h3 h4 h5, eh, et]
    exact ⟨rfl, rfl, rfl, rfl⟩
  · rw [read_frameBus, wf]
    simp only [wh, convert_humidity]
    norm_num
  · rw [read_frameBus, wf]
    simp only [wt, convert_temperature]
    norm_num

/-- Witness for C1 at the frame `[0x00,0x19,0x99,0x9A,0x66,0x66]`. -/
theorem C1_decode_frame_witness :
    raw_humidity [0x00, 0x19, 0x99, 0x9A, 0x66, 0x66] = 0x19 * 4096 + 0x99 * 16 + 0x9A / 16 ∧
    raw_temperature [0x00, 0x19, 0x99, 0x9A, 0x66, 0x66] = 0x9A % 16 * 65536 + 0x66 * 256 + 0x66 :=
  ⟨(C1_decode_frame 0x00 0x19 0x99 0x9A 0x66 0x66 (by decide) (by decide) (by decide)
      (by decide) (by decide) (by decide)).1,
   (C1_decode_frame 0x00 0x19 0x99 0x9A 0x66 0x66 (by decide) (by decide) (by decide)
      (by decide) (by decide) (by decide)).2.1⟩


/-- C2: with float arithmetic read as exact rational arithmetic, every run of
`aht10_read_data` that returns 0 yields `humidity = raw_humidity*100/2^20` and
`temperature = raw_temperature*200/2^20 - 50` for the frame it decoded, hence
`0 <= humidity < 100` and `-50 <= temperature < 150`; a raw value 0 gives
exactly 0 and -50, and the raw value `2^20-1` gives values within 0.001 of 100
and of 150.  Every 6-byte frame is decoded by some such run, and the raw
values 0 and `2^20-1` are reached by the all-zero frame and by the frame whose
payload bytes are all `0xFF`. -/
theorem C2_conversion (fuel : Nat) (bus : Nat → Resp) (t h : ℚ)
    (hret : (aht10_read_data fuel (Env.start bus) t h).ret = some 0) :
    (aht10_read_data fuel (Env.start bus) t h).humidity =
      (raw_humidity (aht10_read_data fuel (Env.start bus) t h).data : ℚ) * 100 / 2 ^ 20 ∧
    (aht10_read_data fuel (Env.start bus) t h).temperature =
      (raw_temperature (aht10_read_data fuel (Env.start bus) t h).data : ℚ) * 200 / 2 ^ 20 - 50 ∧
    0 ≤ (aht10_read_data fuel (Env.start bus) t h).humidity ∧
    (aht10_read_data fuel (Env.start bus) t h).humidity < 100 ∧
    -50 ≤ (aht10_read_data fuel (Env.start bus) t h).temperature ∧
    (aht10_read_data fuel (Env.start bus) t h).temperature < 150 ∧
    (raw_humidity (aht10_read_data fuel (Env.start bus) t h).data = 0 →
      (aht10_read_data fuel (Env.start bus) t h).humidity = 0) ∧
    (raw_temperature (aht10_read_data fuel (Env.start bus) t h).data = 0 →
      (aht10_read_data fuel (Env.start bus) t h).temperature = -50) ∧
    (raw_humidity (aht10_read_data fuel (Env.start bus) t h).data = 2 ^ 20 - 1 →
      |(aht10_read_data fuel (Env.start bus) t h).humidity - 100| ≤ 1 / 1000) ∧
    (raw_temperature (aht10_read_data fuel (Env.start bus) t h).data = 2 ^ 20 - 1 →
      |(aht10_read_data fuel (Env.start bus) t h).temperature - 150| ≤ 1 / 1000) ∧
    (∀ b0 b1 b2 b3 b4 b5 : Nat, b0 < 256 → b1 < 256 → b2 < 256 → b3 < 256 → b4 < 256 →
      b5 < 256 → ∀ t0 h0 : ℚ,
      (aht10_read_data 1 (Env.start (frameBus [b0, b1, b2, b3, b4, b5])) t0 h0).ret = some 0 ∧
      (aht10_read_data 1 (Env.start (frameBus [b0, b1, b2, b3, b4, b5])) t0 h0).data =
        [b0, b1, b2, b3, b4, b5]) ∧
    raw_humidity [0, 0, 0, 0, 0, 0] = 0 ∧ raw_temperature [0, 0, 0, 0, 0, 0] = 0 ∧
    raw_humidity [0, 0xFF, 0xFF, 0xFF, 0xFF, 0xFF] = 2 ^ 20 - 1 ∧
    raw_temperature [0, 0xFF, 0xFF, 0xFF, 0xFF, 0xFF] = 2 ^ 20 - 1 := by
  obtain ⟨n, -, -, -, -, -, hdata, htemp, hhum⟩ := read_success fuel bus t h hret
  have hbh := convert_humidity_bounds _ (raw_humidity_lt (bus (n + 2)))
  have hbt := convert_temperature_bounds _ (raw_temperature_lt (bus (n + 2)))
  rw [hdata, htemp, hhum]
  refine ⟨?_, ?_, hbh.1, hbh.2, hbt.1, hbt.2, ?_, ?_, ?_, ?_, ?_, ?_, ?_, ?_, ?_⟩
  · unfold convert_humidity; ring
  · unfold convert_temperature; ring
  · intro hz; rw [hz]; norm_num [convert_humidity]
  · intro hz; rw [hz]; norm_num [convert_temperature]
  · intro hz; rw [hz]; norm_num [convert_humidity, abs_le]
  · intro hz; rw [hz]; norm_num [convert_temperature, abs_le]
  · intro b0 b1 b2 b3 b4 b5 k0 k1 k2 k3 k4 k5 t0 h0
    rw [read_frameBus, frame_bytes b0 b1 b2 b3 b4 b5 k0 k1 k2 k3 k4 k5]
    exact ⟨rfl, rfl⟩
  · exact raw_humidity_eq _ _ _ _ _ _ (by decide) (by decide) (by decide)
  · exact raw_temperature_eq _ _ _ _ _ _ (by decide) (by decide)
  · exact raw_humidity_eq _ _ _ _ _ _ (by decide) (by decide) (by decide)
  · exact raw_temperature_eq _ _ _ _ _ _ (by decide) (by decide)

/-- Witness for C2: the run that decodes the frame `[0,0xFF,0xFF,0xFF,0xFF,0xFF]`
returns 0, and its humidity and temperature lie in the stated ranges. -/
theorem C2_conversion_witness :
    (aht10_read_data 1 (Env.start (frameBus [0, 0xFF, 0xFF, 0xFF, 0xFF, 0xFF])) 0 0).ret
      = some 0 ∧
    (aht10_read_data 1 (Env.start (frameBus [0, 0xFF, 0xFF, 0xFF, 0xFF, 0xFF])) 0 0).humidity
      < 100 ∧
    (aht10_read_data 1 (Env.start (frameBus [0, 0xFF, 0xFF, 0xFF, 0xFF, 0xFF])) 0 0).temperature
      < 150 :=
  have hret : (aht10_read_data 1 (Env.start (frameBus [0, 0xFF, 0xFF, 0xFF, 0xFF, 0xFF]))
      0 0).ret = some 0 := by rw [read_frameBus]
  ⟨hret, (C2_conversion 1 _ 0 0 hret).2.2.2.1, (C2_conversion 1 _ 0 0 hret).2.2.2.2.2.1⟩

theorem ready_iff_testBit (b : Nat) : b &&& AHT10_STATUS_BUSY = 0 ↔ b.testBit 7 = false := by
  rw [← Bool.not_eq_true, ← busy_iff_testBit, not_not]

/-- Counterexample to C3 as stated: the status read answers `0x00` (ready), the
6-byte read that follows answers a frame whose status byte is `0x80`;
`aht10_read_data` returns 0 and writes the Reading decoded from that frame. -/
theorem C3_frame_status_not_checked :
    (aht10_read_data 1 (Env.start (frameBus [0x80, 0x19, 0x99, 0x9A, 0x66, 0x66])) 0 0).ret
      = some 0 ∧
    (aht10_read_data 1 (Env.start (frameBus [0x80, 0x19, 0x99, 0x9A, 0x66, 0x66])) 0 0).data
      = [0x80, 0x19, 0x99, 0x9A, 0x66, 0x66] ∧
    Nat.testBit ((aht10_read_data 1 (Env.start (frameBus [0x80, 0x19, 0x99, 0x9A, 0x66, 0x66]))
      0 0).data.getD 0 0) 7 = true ∧
    (aht10_read_data 1 (Env.start (frameBus [0x80, 0x19, 0x99, 0x9A, 0x66, 0x66])) 0 0).humidity
      = convert_humidity (raw_humidity [0x80, 0x19, 0x99, 0x9A, 0x66, 0x66]) ∧
    (aht10_read_data 1 (Env.start (frameBus [0x80, 0x19, 0x99, 0x9A, 0x66, 0x66])) 0 0).temperature
      = convert_temperature (raw_temperature [0x80, 0x19, 0x99, 0x9A, 0x66, 0x66]) := by
  have wf := frame_bytes 0x80 0x19 0x99 0x9A 0x66 0x66 (by decide) (by decide) (by decide)
    (by decide) (by decide) (by decide)
  rw [read_frameBus, wf]
  exact ⟨rfl, rfl, by decide, rfl, rfl⟩

/-- C3 (amended): whenever `aht10_read_data` returns 0 and writes a Reading, it
issued, for some `n`, the trigger write, `n` status reads that found the busy
flag set, one status read (transfer `n + 1`) whose byte has the busy flag
(bit 7) clear, and then one separate 6-byte read (transfer `n + 2`); the
Reading is decoded from the frame that last read delivered.  The gate is the
status byte of the last 1-byte read, not byte 0 of the decoded frame. -/
theorem C3_ready_status_precedes_frame (fuel : Nat) (bus : Nat → Resp) (t h : ℚ)
    (hret : (aht10_read_data fuel (Env.start bus) t h).ret = some 0) :
    ∃ n, n < fuel ∧
      (aht10_read_data fuel (Env.start bus) t h).env.trace =
        [Action.write 0x38 [0xAC, 0x33, 0x00], Action.sleep 80] ++
        (List.replicate n [Action.read 0x38 1, Action.sleep 10]).flatten ++
        [Action.read 0x38 1, Action.read 0x38 6] ∧
      (aht10_read_data fuel (Env.start bus) t h).env.next = n + 3 ∧
      (∀ j, j < n → Nat.testBit ((bus (1 + j)).byte 0) 7 = true) ∧
      Nat.testBit ((bus (n + 1)).byte 0) 7 = false ∧
      (aht10_read_data fuel (Env.start bus) t h).data = (List.range 6).map (bus (n + 2)).byte ∧
      (aht10_read_data fuel (Env.start bus) t h).temperature =
        convert_temperature (raw_temperature (aht10_read_data fuel (Env.start bus) t h).data) ∧
      (aht10_read_data fuel (Env.start bus) t h).humidity =
        convert_humidity (raw_humidity (aht10_read_data fuel (Env.start bus) t h).data) := by
  obtain ⟨n, hn, -, hbusy, hready, henv, hdata, htemp, hhum⟩ := read_success fuel bus t h hret
  refine ⟨n, hn, ?_, ?_, fun j hj => (busy_iff_testBit _).1 (hbusy j hj),
    (ready_iff_testBit _).1 hready, hdata, ?_, ?_⟩
  · rw [henv]; rfl
  · rw [henv]
  · rw [hdata]; exact htemp
  · rw [hdata]; exact hhum

/-- Witness for C3 (amended): the run on the bus whose status read answers
`0x00` and whose frame is `[0x00,0x19,0x99,0x9A,0x66,0x66]`. -/
theorem C3_ready_status_precedes_frame_witness :
    (aht10_read_data 1 (Env.start (frameBus [0x00, 0x19, 0x99, 0x9A, 0x66, 0x66])) 0 0).ret
      = some 0 ∧
    ∃ n, n < 1 ∧
      (aht10_read_data 1 (Env.start (frameBus [0x00, 0x19, 0x99, 0x9A, 0x66, 0x66])) 0 0).env.next
        = n + 3 ∧
      Nat.testBit ((frameBus [0x00, 0x19, 0x99, 0x9A, 0x66, 0x66] (n + 1)).byte 0) 7 = false :=
  have hret : (aht10_read_data 1 (Env.start (frameBus [0x00, 0x19, 0x99, 0x9A, 0x66, 0x66]))
      0 0).ret = some 0 := by rw [read_frameBus]
  ⟨hret, (C3_ready_status_precedes_frame 1 _ 0 0 hret).imp
    fun _ hn => ⟨hn.1, hn.2.2.1, hn.2.2.2.2.1⟩⟩

/-- While every status read succeeds with the busy flag set, the loop is still
running after any number of iterations. -/
theorem read_busy_forever (bus : Nat → Resp) (h0 : (bus 0).ret = 0)
    (hb : ∀ k, 1 ≤ k → (bus k).ret = 0 ∧ Nat.testBit ((bus k).byte 0) 7 = true)
    (fuel : Nat) (t h : ℚ) :
    (aht10_read_data fuel (Env.start bus) t h).ret = none ∧
    (aht10_read_data fuel (Env.start bus) t h).env =
      ⟨bus, 1 + fuel, [Action.write AHT10_I2C_ADDR [AHT10_CMD_TRIGGER, 0x33, 0x00],
        Action.sleep 80] ++ busyRounds fuel⟩ ∧
    (aht10_read_data fuel (Env.start bus) t h).temperature = t ∧
    (aht10_read_data fuel (Env.start bus) t h).humidity = h := by
  rcases read_cases fuel bus t h _ rfl with ⟨hne, -⟩ | ⟨-, n, -, -, hc⟩
  · exact absurd h0 hne
  · rcases hc with ⟨hn, hr, henv, ht, hh⟩ | ⟨-, hne, -⟩ | ⟨-, -, hrdy, -⟩ | ⟨-, -, hrdy, -⟩
    · rw [hn] at henv
      exact ⟨hr, henv, ht, hh⟩
    · exact absurd (hb (1 + n) (by omega)).1 hne
    · exact absurd hrdy ((busy_iff_testBit _).2 (hb (1 + n) (by omega)).2)
    · exact absurd hrdy ((busy_iff_testBit _).2 (hb (1 + n) (by omega)).2)

theorem alwaysBusy_spec (k : Nat) :
    (alwaysBusy k).ret = 0 ∧ Nat.testBit ((alwaysBusy k).byte 0) 7 = true :=
  ⟨rfl, by
    show Nat.testBit (Resp.byte (Resp.mk 0 [0x80]) 0) 7 = true
    decide⟩

/-- Counterexample to C4 as stated: on the bus that answers every transfer with
success and every status read with `0x80`, no amount of fuel makes
`aht10_read_data` return, with a timeout error or otherwise. -/
theorem C4_no_timeout :
    (∀ k, (alwaysBusy k).ret = 0 ∧ Nat.testBit ((alwaysBusy k).byte 0) 7 = true) ∧
    ¬ ∃ fuel, (aht10_read_data fuel (Env.start alwaysBusy) 0 0).ret ≠ none :=
  ⟨alwaysBusy_spec, fun ⟨fuel, hne⟩ =>
    hne (read_busy_forever alwaysBusy rfl (fun k _ => alwaysBusy_spec k) fuel 0 0).1⟩

/-- C4 (amended): on every bus on which the trigger write succeeds and every
status read succeeds with the busy flag (bit 7) set, `aht10_read_data` never
returns: after any number `fuel` of loop iterations it is still polling, having
issued the trigger write, the 80 ms sleep and exactly `fuel` status reads each
followed by a 10 ms sleep, with the caller's outputs untouched.  There is no
retry bound and no timeout error. -/
theorem C4_busy_poll_unbounded (bus : Nat → Resp) (h0 : (bus 0).ret = 0)
    (hb : ∀ k, 1 ≤ k → (bus k).ret = 0 ∧ Nat.testBit ((bus k).byte 0) 7 = true)
    (fuel : Nat) (t h : ℚ) :
    (aht10_read_data fuel (Env.start bus) t h).ret = none ∧
    (aht10_read_data fuel (Env.start bus) t h).env.next = 1 + fuel ∧
    (aht10_read_data fuel (Env.start bus) t h).env.trace =
      [Action.write 0x38 [0xAC, 0x33, 0x00], Action.sleep 80] ++
      (List.replicate fuel [Action.read 0x38 1, Action.sleep 10]).flatten ∧
    (aht10_read_data fuel (Env.start bus) t h).temperature = t ∧
    (aht10_read_data fuel (Env.start bus) t h).humidity = h := by
  obtain ⟨hr, henv, ht, hh⟩ := read_busy_forever bus h0 hb fuel t h
  refine ⟨hr, ?_, ?_, ht, hh⟩
  · rw [henv]
  · rw [henv]; rfl

/-- Witness for C4 (amended): three iterations on the always-busy bus. -/
theorem C4_busy_poll_unbounded_witness :
    (alwaysBusy 0).ret = 0 ∧
    (aht10_read_data 3 (Env.start alwaysBusy) 0 0).ret = none ∧
    (aht10_read_data 3 (Env.start alwaysBusy) 0 0).env.next = 1 + 3 :=
  ⟨rfl, (C4_busy_poll_unbounded alwaysBusy rfl (fun k _ => alwaysBusy_spec k) 3 0 0).1,
    (C4_busy_poll_unbounded alwaysBusy rfl (fun k _ => alwaysBusy_spec k) 3 0 0).2.1⟩

theorem busyRounds_count_sleep (n : Nat) : (busyRounds n).count (Action.sleep 10) = n := by
  induction n with
  | zero => rfl
  | succ n ih => simp [busyRounds_succ, List.count_cons, ih, AHT10_I2C_ADDR]

theorem busyRounds_count_read1 (n : Nat) :
    (busyRounds n).count (Action.read 0x38 1) = n := by
  induction n with
  | zero => rfl
  | succ n ih => simp [busyRounds_succ, List.count_cons, ih, AHT10_I2C_ADDR]

theorem busyRounds_count_read6 (n : Nat) :
    (busyRounds n).count (Action.read 0x38 6) = 0 := by
  induction n with
  | zero => rfl
  | succ n ih => simp [busyRounds_succ, List.count_cons, ih, AHT10_I2C_ADDR]

/-- When the trigger write succeeds, `n` status reads succeed with the busy
flag set and the next one succeeds with it clear, the run reaches the frame
read after exactly `n` busy rounds (given fuel for `n + 1` iterations). -/
theorem read_reaches_frame (n fuel : Nat) (bus : Nat → Resp) (t h : ℚ) (hfuel : n < fuel)
    (hok : ∀ k, k ≤ n + 1 → (bus k).ret = 0)
    (hbusy : ∀ j, j < n → Nat.testBit ((bus (1 + j)).byte 0) 7 = true)
    (hready : Nat.testBit ((bus (n + 1)).byte 0) 7 = false) :
    (aht10_read_data fuel (Env.start bus) t h).env =
      ⟨bus, n + 3, [Action.write AHT10_I2C_ADDR [AHT10_CMD_TRIGGER, 0x33, 0x00],
        Action.sleep 80] ++ busyRounds n ++
        [Action.read AHT10_I2C_ADDR 1, Action.read AHT10_I2C_ADDR 6]⟩ ∧
    (((bus (n + 2)).ret ≠ 0 ∧
        (aht10_read_data fuel (Env.start bus) t h).ret = some (bus (n + 2)).ret ∧
        (aht10_read_data fuel (Env.start bus) t h).temperature = t ∧
        (aht10_read_data fuel (Env.start bus) t h).humidity = h) ∨
     ((bus (n + 2)).ret = 0 ∧
        (aht10_read_data fuel (Env.start bus) t h).ret = some 0 ∧
        (aht10_read_data fuel (Env.start bus) t h).data = (List.range 6).map (bus (n + 2)).byte ∧
        (aht10_read_data fuel (Env.start bus) t h).temperature =
          convert_temperature (raw_temperature ((List.range 6).map (bus (n + 2)).byte)) ∧
        (aht10_read_data fuel (Env.start bus) t h).humidity =
          convert_humidity (raw_humidity ((List.range 6).map (bus (n + 2)).byte)))) := by
  have hrdy : (bus (n + 1)).byte 0 &&& AHT10_STATUS_BUSY = 0 := (ready_iff_testBit _).2 hready
  rcases read_cases fuel bus t h _ rfl with ⟨hne, -⟩ | ⟨-, m, -, hm, hc⟩
  · exact absurd (hok 0 (Nat.zero_le _)) hne
  · -- the index found by the case analysis is `n`
    have hmn : m = n := by
      rcases Nat.lt_trichotomy m n with hlt | heq | hgt
      · exfalso
        have hbm : (bus (1 + m)).byte 0 &&& AHT10_STATUS_BUSY ≠ 0 :=
          (busy_iff_testBit _).2 (hbusy m hlt)
        rcases hc with ⟨hf, -⟩ | ⟨-, hne, -⟩ | ⟨-, -, hz, -⟩ | ⟨-, -, hz, -⟩
        · omega
        · exact hne (hok (1 + m) (by omega))
        · exact hbm hz
        · exact hbm hz
      · exact heq
      · exfalso
        have := (hm n hgt).2
        rw [Nat.add_comm 1 n] at this
        exact this hrdy
    subst hmn
    have e1 : 1 + m + 1 = m + 2 := by omega
    have e2 : 1 + m + 2 = m + 3 := by omega
    rw [e1, e2] at hc
    rcases hc with ⟨hf, -⟩ | ⟨-, hne, -⟩ | ⟨-, -, -, hne, hr, henv, ht, hh⟩ |
      ⟨-, -, -, hz, hr, henv, hd, ht, hh⟩
    · omega
    · exact absurd (hok (1 + m) (by omega)) hne
    · exact ⟨henv, Or.inl ⟨hne, hr, ht, hh⟩⟩
    · exact ⟨henv, Or.inr ⟨hz, hr, hd, ht, hh⟩⟩

/-- Bus for the status sequence `[0x80, 0x80, 0x00]`: the trigger write
succeeds, three status reads deliver `0x80`, `0x80`, `0x00`, and the frame read
delivers `[0x00,0x19,0x99,0x9A,0x66,0x66]`. -/
theorem read_busy_busy_ready_trace :
    (aht10_read_data 3 (Env.start (scriptBus [⟨0, []⟩, ⟨0, [0x80]⟩, ⟨0, [0x80]⟩, ⟨0, [0x00]⟩,
        ⟨0, [0x00, 0x19, 0x99, 0x9A, 0x66, 0x66]⟩])) 0 0).env.trace =
      [Action.write 0x38 [0xAC, 0x33, 0x00], Action.sleep 80,
        Action.read 0x38 1, Action.sleep 10, Action.read 0x38 1, Action.sleep 10,
        Action.read 0x38 1, Action.read 0x38 6] := by
  simp [aht10_read_data, poll, read_frame, i2c_read, i2c_write, k_msleep, Env.start,
    scriptBus, Resp.byte, AHT10_STATUS_BUSY, AHT10_I2C_ADDR, AHT10_CMD_TRIGGER, List.range_succ]

/-- C5: for every `n`, when all transfers succeed and the status reads deliver
`n` bytes with the busy flag set followed by one with it clear,
`aht10_read_data` (given fuel for more than `n` iterations) returns 0 after
exactly: write `[0xAC,0x33,0x00]` to `0x38`, sleep 80 ms, `n` times (read 1
byte from `0x38`, sleep 10 ms), read 1 byte from `0x38`, read 6 bytes from
`0x38`.  The log holds `n` retry sleeps, `n + 1` status reads and one frame
read; for the status sequence `[0x80,0x80,0x00]` that is 2 retry sleeps and 3
status reads before the single frame read. -/
theorem C5_busy_poll_sequence (n fuel : Nat) (bus : Nat → Resp) (t h : ℚ) (hfuel : n < fuel)
    (hok : ∀ k, k ≤ n + 2 → (bus k).ret = 0)
    (hbusy : ∀ j, j < n → Nat.testBit ((bus (1 + j)).byte 0) 7 = true)
    (hready : Nat.testBit ((bus (n + 1)).byte 0) 7 = false) :
    (aht10_read_data fuel (Env.start bus) t h).ret = some 0 ∧
    (aht10_read_data fuel (Env.start bus) t h).env.trace =
      [Action.write 0x38 [0xAC, 0x33, 0x00], Action.sleep 80] ++
      (List.replicate n [Action.read 0x38 1, Action.sleep 10]).flatten ++
      [Action.read 0x38 1, Action.read 0x38 6] ∧
    (aht10_read_data fuel (Env.start bus) t h).env.next = n + 3 ∧
    (aht10_read_data fuel (Env.start bus) t h).env.trace.count (Action.sleep 10) = n ∧
    (aht10_read_data fuel (Env.start bus) t h).env.trace.count (Action.read 0x38 1) = n + 1 ∧
    (aht10_read_data fuel (Env.start bus) t h).env.trace.count (Action.read 0x38 6) = 1 ∧
    (aht10_read_data 3 (Env.start (scriptBus [⟨0, []⟩, ⟨0, [0x80]⟩, ⟨0, [0x80]⟩, ⟨0, [0x00]⟩,
        ⟨0, [0x00, 0x19, 0x99, 0x9A, 0x66, 0x66]⟩])) 0 0).env.trace =
      [Action.write 0x38 [0xAC, 0x33, 0x00], Action.sleep 80,
        Action.read 0x38 1, Action.sleep 10, Action.read 0x38 1, Action.sleep 10,
        Action.read 0x38 1, Action.read 0x38 6] := by
  obtain ⟨henv, hc⟩ := read_reaches_frame n fuel bus t h hfuel
    (fun k hk => hok k (by omega)) hbusy hready
  rcases hc with ⟨hne, -⟩ | ⟨-, hr, -⟩
  · exact absurd (hok (n + 2) (le_refl _)) hne
  · have hs := busyRounds_count_sleep n
    have h1 := busyRounds_count_read1 n
    have h6 := busyRounds_count_read6 n
    rw [henv]
    refine ⟨hr, rfl, rfl, ?_, ?_, ?_, read_busy_busy_ready_trace⟩
    · simp [List.count_append, List.count_cons, hs, AHT10_I2C_ADDR]
    · simp [List.count_append, List.count_cons, h1, AHT10_I2C_ADDR]
    · simp [List.count_append, List.count_cons, h6, AHT10_I2C_ADDR]

/-- Witness for C5: the status sequence `[0x80,0x80,0x00]` (`n = 2`). -/
theorem C5_busy_poll_sequence_witness :
    (aht10_read_data 3 (Env.start (scriptBus [⟨0, []⟩, ⟨0, [0x80]⟩, ⟨0, [0x80]⟩, ⟨0, [0x00]⟩,
        ⟨0, [0x00, 0x19, 0x99, 0x9A, 0x66, 0x66]⟩])) 0 0).ret = some 0 ∧
    (aht10_read_data 3 (Env.start (scriptBus [⟨0, []⟩, ⟨0, [0x80]⟩, ⟨0, [0x80]⟩, ⟨0, [0x00]⟩,
        ⟨0, [0x00, 0x19, 0x99, 0x9A, 0x66, 0x66]⟩])) 0 0).env.trace.count (Action.sleep 10) = 2 ∧
    (aht10_read_data 3 (Env.start (scriptBus [⟨0, []⟩, ⟨0, [0x80]⟩, ⟨0, [0x80]⟩, ⟨0, [0x00]⟩,
        ⟨0, [0x00, 0x19, 0x99, 0x9A, 0x66, 0x66]⟩])) 0 0).env.trace.count (Action.read 0x38 1) = 3 ∧
    (aht10_read_data 3 (Env.start (scriptBus [⟨0, []⟩, ⟨0, [0x80]⟩, ⟨0, [0x80]⟩, ⟨0, [0x00]⟩,
        ⟨0, [0x00, 0x19, 0x99, 0x9A, 0x66, 0x66]⟩])) 0 0).env.trace.count (Action.read 0x38 6) = 1 :=
  have w := C5_busy_poll_sequence 2 3 (scriptBus [⟨0, []⟩, ⟨0, [0x80]⟩, ⟨0, [0x80]⟩, ⟨0, [0x00]⟩,
    ⟨0, [0x00, 0x19, 0x99, 0x9A, 0x66, 0x66]⟩]) 0 0 (by decide) (by decide) (by decide) (by decide)
  ⟨w.1, w.2.2.2.1, w.2.2.2.2.1, w.2.2.2.2.2.1⟩

/-! `aht10_init` -/

/-- Complete case analysis of `aht10_init` on a fresh environment. -/
theorem init_cases (bus : Nat → Resp) :
    ((bus 0).ret ≠ 0 ∧ aht10_init (Env.start bus) =
      ⟨(bus 0).ret, ⟨bus, 1, [Action.write 0x38 [0xBA]]⟩⟩) ∨
    ((bus 0).ret = 0 ∧ (bus 1).ret ≠ 0 ∧ aht10_init (Env.start bus) =
      ⟨(bus 1).ret, ⟨bus, 2, [Action.write 0x38 [0xBA], Action.sleep 20,
        Action.write 0x38 [0xE1, 0x08, 0x00]]⟩⟩) ∨
    ((bus 0).ret = 0 ∧ (bus 1).ret = 0 ∧ (bus 2).ret ≠ 0 ∧ aht10_init (Env.start bus) =
      ⟨(bus 2).ret, ⟨bus, 3, [Action.write 0x38 [0xBA], Action.sleep 20,
        Action.write 0x38 [0xE1, 0x08, 0x00], Action.sleep 10, Action.read 0x38 1]⟩⟩) ∨
    ((bus 0).ret = 0 ∧ (bus 1).ret = 0 ∧ (bus 2).ret = 0 ∧
      (bus 2).byte 0 &&& AHT10_STATUS_CALIBRATED = 0 ∧ aht10_init (Env.start bus) =
      ⟨-1, ⟨bus, 3, [Action.write 0x38 [0xBA], Action.sleep 20,
        Action.write 0x38 [0xE1, 0x08, 0x00], Action.sleep 10, Action.read 0x38 1]⟩⟩) ∨
    ((bus 0).ret = 0 ∧ (bus 1).ret = 0 ∧ (bus 2).ret = 0 ∧
      (bus 2).byte 0 &&& AHT10_STATUS_CALIBRATED ≠ 0 ∧ aht10_init (Env.start bus) =
      ⟨0, ⟨bus, 3, [Action.write 0x38 [0xBA], Action.sleep 20,
        Action.write 0x38 [0xE1, 0x08, 0x00], Action.sleep 10, Action.read 0x38 1]⟩⟩) := by
  by_cases h0 : (bus 0).ret = 0
  · by_cases h1 : (bus 1).ret = 0
    · by_cases h2 : (bus 2).ret = 0
      · by_cases hc : (bus 2).byte 0 &&& AHT10_STATUS_CALIBRATED = 0
        · refine Or.inr (Or.inr (Or.inr (Or.inl ⟨h0, h1, h2, hc, ?_⟩)))
          simp [aht10_init, i2c_write, i2c_read, k_msleep, Env.start, h0, h1, h2, hc,
            List.range_succ, AHT10_I2C_ADDR, AHT10_CMD_SOFT_RESET, AHT10_CMD_INIT]
        · refine Or.inr (Or.inr (Or.inr (Or.inr ⟨h0, h1, h2, hc, ?_⟩)))
          simp [aht10_init, i2c_write, i2c_read, k_msleep, Env.start, h0, h1, h2, hc,
            List.range_succ, AHT10_I2C_ADDR, AHT10_CMD_SOFT_RESET, AHT10_CMD_INIT]
      · refine Or.inr (Or.inr (Or.inl ⟨h0, h1, h2, ?_⟩))
        simp [aht10_init, i2c_write, i2c_read, k_msleep, Env.start, h0, h1, h2,
          AHT10_I2C_ADDR, AHT10_CMD_SOFT_RESET, AHT10_CMD_INIT]
    · refine Or.inr (Or.inl ⟨h0, h1, ?_⟩)
      simp [aht10_init, i2c_write, k_msleep, Env.start, h0, h1,
        AHT10_I2C_ADDR, AHT10_CMD_SOFT_RESET, AHT10_CMD_INIT]
  · refine Or.inl ⟨h0, ?_⟩
    simp [aht10_init, i2c_write, Env.start, h0, AHT10_I2C_ADDR, AHT10_CMD_SOFT_RESET]

/-- C6: `aht10_init` returns 0 if and only if the reset write (transfer 0), the
init write (transfer 1) and the 1-byte status read (transfer 2) all succeed and
the status byte read back has the calibration flag (bit 3, `0x08`) set; a run
that returns 0 issued exactly those three transfers; and a successfully read
status byte `0x00` makes it return the non-zero code -1. -/
theorem C6_init_success_iff (bus : Nat → Resp) :
    ((aht10_init (Env.start bus)).ret = 0 ↔
      (bus 0).ret = 0 ∧ (bus 1).ret = 0 ∧ (bus 2).ret = 0 ∧
      Nat.testBit ((bus 2).byte 0) 3 = true) ∧
    ((aht10_init (Env.start bus)).ret = 0 →
      (aht10_init (Env.start bus)).env.trace =
        [Action.write 0x38 [0xBA], Action.sleep 20, Action.write 0x38 [0xE1, 0x08, 0x00],
          Action.sleep 10, Action.read 0x38 1]) ∧
    ((bus 0).ret = 0 → (bus 1).ret = 0 → (bus 2).ret = 0 → (bus 2).byte 0 = 0x00 →
      (aht10_init (Env.start bus)).ret = -1 ∧ (aht10_init (Env.start bus)).ret ≠ 0) := by
  rcases init_cases bus with ⟨h0, hr⟩ | ⟨h0, h1, hr⟩ | ⟨h0, h1, h2, hr⟩ | ⟨h0, h1, h2, hc, hr⟩ |
    ⟨h0, h1, h2, hc, hr⟩
  · rw [hr]
    exact ⟨⟨fun hz => absurd hz h0, fun hz => absurd hz.1 h0⟩, fun hz => absurd hz h0,
      fun hz => absurd hz h0⟩
  · rw [hr]
    exact ⟨⟨fun hz => absurd hz h1, fun hz => absurd hz.2.1 h1⟩, fun hz => absurd hz h1,
      fun _ hz => absurd hz h1⟩
  · rw [hr]
    exact ⟨⟨fun hz => absurd hz h2, fun hz => absurd hz.2.2.1 h2⟩, fun hz => absurd hz h2,
      fun _ _ hz => absurd hz h2⟩
  · rw [hr]
    have hnc : ¬ Nat.testBit ((bus 2).byte 0) 3 = true := fun hb =>
      (calibrated_iff_testBit _).2 hb hc
    have hm1 : (-1 : Int) ≠ 0 := by decide
    exact ⟨⟨fun hz => absurd hz hm1, fun hz => absurd hz.2.2.2 hnc⟩,
      fun hz => absurd hz hm1, fun _ _ _ _ => ⟨rfl, hm1⟩⟩
  · rw [hr]
    refine ⟨⟨fun _ => ⟨h0, h1, h2, (calibrated_iff_testBit _).1 hc⟩, fun _ => rfl⟩,
      fun _ => rfl, fun _ _ _ hb => ?_⟩
    rw [hb] at hc
    exact absurd rfl hc

/-- Counterexample to C7 as stated: one run ends because the status byte `0x00`
lacks the calibration flag, the other because the reset write returns the
non-zero code -1; both runs of `aht10_init` return -1. -/
theorem C7_same_code_for_both_errors :
    ((scriptBus [⟨0, []⟩, ⟨0, []⟩, ⟨0, [0x00]⟩] 0).ret = 0 ∧
      (scriptBus [⟨0, []⟩, ⟨0, []⟩, ⟨0, [0x00]⟩] 1).ret = 0 ∧
      (scriptBus [⟨0, []⟩, ⟨0, []⟩, ⟨0, [0x00]⟩] 2).ret = 0 ∧
      Nat.testBit ((scriptBus [⟨0, []⟩, ⟨0, []⟩, ⟨0, [0x00]⟩] 2).byte 0) 3 = false) ∧
    (scriptBus [⟨-1, []⟩] 0).ret ≠ 0 ∧
    (aht10_init (Env.start (scriptBus [⟨0, []⟩, ⟨0, []⟩, ⟨0, [0x00]⟩]))).ret = -1 ∧
    (aht10_init (Env.start (scriptBus [⟨-1, []⟩]))).ret = -1 ∧
    (aht10_init (Env.start (scriptBus [⟨0, []⟩, ⟨0, []⟩, ⟨0, [0x00]⟩]))).ret =
      (aht10_init (Env.start (scriptBus [⟨-1, []⟩]))).ret := by
  refine ⟨by decide, by decide, ?_, ?_, ?_⟩ <;> rfl

/-- C7 (amended): a run of `aht10_init` that ends because the status byte lacks
the calibration flag returns -1, and a run that ends because its first failing
transfer (reset write, init write or status read) returned a non-zero code
returns exactly that code; the two returned values differ if and only if that
code is not -1. -/
theorem C7_calibration_vs_transport_code (busC busT : Nat → Resp) (k : Nat)
    (hC0 : (busC 0).ret = 0) (hC1 : (busC 1).ret = 0) (hC2 : (busC 2).ret = 0)
    (hCal : Nat.testBit ((busC 2).byte 0) 3 = false)
    (hk : k ≤ 2) (hTok : ∀ j, j < k → (busT j).ret = 0) (hTfail : (busT k).ret ≠ 0) :
    (aht10_init (Env.start busC)).ret = -1 ∧
    (aht10_init (Env.start busT)).ret = (busT k).ret ∧
    ((aht10_init (Env.start busC)).ret ≠ (aht10_init (Env.start busT)).ret ↔
      (busT k).ret ≠ -1) := by
  have hc : (aht10_init (Env.start busC)).ret = -1 := by
    rcases init_cases busC with ⟨h0, -⟩ | ⟨-, h1, -⟩ | ⟨-, -, h2, -⟩ | ⟨-, -, -, -, hr⟩ |
      ⟨-, -, -, hc, -⟩
    · exact absurd hC0 h0
    · exact absurd hC1 h1
    · exact absurd hC2 h2
    · rw [hr]
    · rw [(calibrated_iff_testBit _).1 hc] at hCal
      exact absurd hCal (by decide)
  have ht : (aht10_init (Env.start busT)).ret = (busT k).ret := by
    rcases init_cases busT with ⟨h0, hr⟩ | ⟨h0, h1, hr⟩ | ⟨h0, h1, h2, hr⟩ | ⟨h0, h1, h2, -⟩ |
      ⟨h0, h1, h2, -⟩
    · have hk0 : k = 0 := by
        by_contra hne
        exact h0 (hTok 0 (by omega))
      rw [hr, hk0]
    · have hk1 : k = 1 := by
        by_contra hne
        rcases Nat.lt_or_ge k 1 with hlt | hge
        · exact hTfail (by rwa [show k = 0 by omega])
        · exact h1 (hTok 1 (by omega))
      rw [hr, hk1]
    · have hk2 : k = 2 := by
        by_contra hne
        rcases Nat.lt_or_ge k 1 with hlt | hge
        · exact hTfail (by rwa [show k = 0 by omega])
        · exact hTfail (by rwa [show k = 1 by omega])
      rw [hr, hk2]
    · exfalso
      interval_cases k
      · exact hTfail h0
      · exact hTfail h1
      · exact hTfail h2
    · exfalso
      interval_cases k
      · exact hTfail h0
      · exact hTfail h1
      · exact hTfail h2
  rw [hc, ht]
  exact ⟨rfl, rfl, ⟨fun hne heq => hne heq.symm, fun hne heq => hne heq.symm⟩⟩

/-- Witness for C7 (amended): calibration failure against an init write that
fails with code -5. -/
theorem C7_calibration_vs_transport_code_witness :
    (aht10_init (Env.start (scriptBus [⟨0, []⟩, ⟨0, []⟩, ⟨0, [0x00]⟩]))).ret = -1 ∧
    (aht10_init (Env.start (scriptBus [⟨0, []⟩, ⟨-5, []⟩]))).ret =
      (scriptBus [⟨0, []⟩, ⟨-5, []⟩] 1).ret ∧
    ((aht10_init (Env.start (scriptBus [⟨0, []⟩, ⟨0, []⟩, ⟨0, [0x00]⟩]))).ret ≠
      (aht10_init (Env.start (scriptBus [⟨0, []⟩, ⟨-5, []⟩]))).ret ↔
      (scriptBus [⟨0, []⟩, ⟨-5, []⟩] 1).ret ≠ -1) :=
  C7_calibration_vs_transport_code (scriptBus [⟨0, []⟩, ⟨0, []⟩, ⟨0, [0x00]⟩])
    (scriptBus [⟨0, []⟩, ⟨-5, []⟩]) 1 rfl rfl rfl (by decide) (by decide) (by decide) (by decide)

/-- C8: for every bus behaviour the actions issued by `aht10_init` form a prefix
of `[write [0xBA] to 0x38; sleep 20; write [0xE1,0x08,0x00] to 0x38; sleep 10;
read 1 byte from 0x38]`, and no action of the log occurs twice.  If a transfer
fails it is the last action of the log and the last transfer issued, and
`aht10_init` returns exactly its code: the log is the first 1, 3 or 5 actions
when the reset write, the init write or the status read fails.  When both
writes succeed the whole sequence is issued, once. -/
theorem C8_init_sequence (bus : Nat → Resp) :
    (aht10_init (Env.start bus)).env.trace <+:
      [Action.write 0x38 [0xBA], Action.sleep 20, Action.write 0x38 [0xE1, 0x08, 0x00],
        Action.sleep 10, Action.read 0x38 1] ∧
    (aht10_init (Env.start bus)).env.trace.Nodup ∧
    (aht10_init (Env.start bus)).env.next ≤ 3 ∧
    (∀ k, k < (aht10_init (Env.start bus)).env.next → (bus k).ret ≠ 0 →
      (aht10_init (Env.start bus)).ret = (bus k).ret ∧
      (aht10_init (Env.start bus)).env.next = k + 1) ∧
    ((bus 0).ret ≠ 0 →
      (aht10_init (Env.start bus)).ret = (bus 0).ret ∧
      (aht10_init (Env.start bus)).env.trace = [Action.write 0x38 [0xBA]]) ∧
    ((bus 0).ret = 0 → (bus 1).ret ≠ 0 →
      (aht10_init (Env.start bus)).ret = (bus 1).ret ∧
      (aht10_init (Env.start bus)).env.trace =
        [Action.write 0x38 [0xBA], Action.sleep 20, Action.write 0x38 [0xE1, 0x08, 0x00]]) ∧
    ((bus 0).ret = 0 → (bus 1).ret = 0 →
      (aht10_init (Env.start bus)).env.trace =
        [Action.write 0x38 [0xBA], Action.sleep 20, Action.write 0x38 [0xE1, 0x08, 0x00],
          Action.sleep 10, Action.read 0x38 1] ∧
      ((bus 2).ret ≠ 0 → (aht10_init (Env.start bus)).ret = (bus 2).ret)) := by
  rcases init_cases bus with ⟨h0, hr⟩ | ⟨h0, h1, hr⟩ | ⟨h0, h1, h2, hr⟩ | ⟨h0, h1, h2, hc, hr⟩ |
    ⟨h0, h1, h2, hc, hr⟩
  · rw [hr]
    dsimp only
    refine ⟨by decide, by decide, by decide, ?_, fun _ => ⟨rfl, rfl⟩, fun hz => absurd hz h0,
      fun hz => absurd hz h0⟩
    intro k hk _
    have hk0 : k = 0 := Nat.lt_one_iff.1 hk
    subst hk0
    exact ⟨rfl, rfl⟩
  · rw [hr]
    dsimp only
    refine ⟨by decide, by decide, by decide, ?_, fun hz => absurd h0 hz, fun _ _ => ⟨rfl, rfl⟩,
      fun _ hz => absurd hz h1⟩
    intro k hk hf
    have hk' : k < 2 := hk
    interval_cases k
    · exact absurd h0 hf
    · exact ⟨rfl, rfl⟩
  · rw [hr]
    dsimp only
    refine ⟨by decide, by decide, by decide, ?_, fun hz => absurd h0 hz, fun _ hz => absurd h1 hz,
      fun _ _ => ⟨rfl, fun _ => rfl⟩⟩
    intro k hk hf
    have hk' : k < 3 := hk
    interval_cases k
    · exact absurd h0 hf
    · exact absurd h1 hf
    · exact ⟨rfl, rfl⟩
  · rw [hr]
    dsimp only
    refine ⟨by decide, by decide, by decide, ?_, fun hz => absurd h0 hz, fun _ hz => absurd h1 hz,
      fun _ _ => ⟨rfl, fun hz => absurd h2 hz⟩⟩
    intro k hk hf
    have hk' : k < 3 := hk
    interval_cases k
    · exact absurd h0 hf
    · exact absurd h1 hf
    · exact absurd h2 hf
  · rw [hr]
    dsimp only
    refine ⟨by decide, by decide, by decide, ?_, fun hz => absurd h0 hz, fun _ hz => absurd h1 hz,
      fun _ _ => ⟨rfl, fun hz => absurd h2 hz⟩⟩
    intro k hk hf
    have hk' : k < 3 := hk
    interval_cases k
    · exact absurd h0 hf
    · exact absurd h1 hf
    · exact absurd h2 hf

/-- Closed form of `control_leds`: the final level of each line. -/
theorem control_leds_eq (s : Leds) (temperature humidity : ℚ) :
    control_leds s temperature humidity =
      { red := decide (temperature > 25),
        green := decide (humidity > 60),
        blue := decide (¬ temperature > 25 ∧ temperature < 20) } := by
  unfold control_leds gpio_pin_set_dt TEMP_HIGH_THRESHOLD TEMP_LOW_THRESHOLD
    HUMIDITY_HIGH_THRESHOLD
  by_cases h1 : temperature > 25 <;> by_cases h2 : temperature < 20 <;>
    by_cases h3 : humidity > 60 <;> simp [h1, h2, h3]

/-- C9: for every reading and every prior state of the three LED lines, after
`control_leds` red is active iff `temperature > 25`, blue iff
`temperature < 20` and green iff `humidity > 60`; red and blue are never both
active, both are off for `20 <= temperature <= 25`, temperature exactly 25
leaves red off, and the reading (30, 50) gives red on, blue off, green off. -/
theorem C9_control_leds (s : Leds) (temperature humidity : ℚ) :
    ((control_leds s temperature humidity).red = true ↔ temperature > 25) ∧
    ((control_leds s temperature humidity).blue = true ↔ temperature < 20) ∧
    ((control_leds s temperature humidity).green = true ↔ humidity > 60) ∧
    ¬ ((control_leds s temperature humidity).red = true ∧
        (control_leds s temperature humidity).blue = true) ∧
    (20 ≤ temperature ∧ temperature ≤ 25 →
      (control_leds s temperature humidity).red = false ∧
      (control_leds s temperature humidity).blue = false) ∧
    (control_leds s 25 humidity).red = false ∧
    control_leds s 30 50 = { red := true, green := false, blue := false } := by
  have hred : (control_leds s temperature humidity).red = true ↔ temperature > 25 := by
    rw [control_leds_eq]; simp
  have hblue : (control_leds s temperature humidity).blue = true ↔ temperature < 20 := by
    rw [control_leds_eq]
    simp only [decide_eq_true_eq]
    constructor
    · exact fun hb => hb.2
    · exact fun hb => ⟨by linarith, hb⟩
  have hgreen : (control_leds s temperature humidity).green = true ↔ humidity > 60 := by
    rw [control_leds_eq]; simp
  refine ⟨hred, hblue, hgreen, ?_, ?_, ?_, ?_⟩
  · rintro ⟨hr, hb⟩
    have := hred.1 hr
    have := hblue.1 hb
    linarith
  · rintro ⟨hlo, hhi⟩
    constructor
    · rw [← Bool.not_eq_true, hred]; exact not_lt.2 hhi
    · rw [← Bool.not_eq_true, hblue]; exact not_lt.2 hlo
  · rw [control_leds_eq]; simp
  · rw [control_leds_eq]; norm_num

/-! Failure paths of `aht10_read_data` -/

/-- When the trigger write succeeds, `n` status reads succeed with the busy
flag set and the next status read fails, the run ends at that read. -/
theorem read_status_fails (n fuel : Nat) (bus : Nat → Resp) (t h : ℚ) (hfuel : n < fuel)
    (hok : ∀ k, k ≤ n → (bus k).ret = 0)
    (hbusy : ∀ j, j < n → Nat.testBit ((bus (1 + j)).byte 0) 7 = true)
    (hfail : (bus (n + 1)).ret ≠ 0) :
    (aht10_read_data fuel (Env.start bus) t h).ret = some (bus (n + 1)).ret ∧
    (aht10_read_data fuel (Env.start bus) t h).env =
      ⟨bus, n + 2, [Action.write AHT10_I2C_ADDR [AHT10_CMD_TRIGGER, 0x33, 0x00],
        Action.sleep 80] ++ busyRounds n ++ [Action.read AHT10_I2C_ADDR 1]⟩ ∧
    (aht10_read_data fuel (Env.start bus) t h).temperature = t ∧
    (aht10_read_data fuel (Env.start bus) t h).humidity = h := by
  rcases read_cases fuel bus t h _ rfl with ⟨hne, -⟩ | ⟨-, m, -, hm, hc⟩
  · exact absurd (hok 0 (Nat.zero_le _)) hne
  · have hmn : m = n := by
      rcases Nat.lt_trichotomy m n with hlt | heq | hgt
      · exfalso
        have hbm : (bus (1 + m)).byte 0 &&& AHT10_STATUS_BUSY ≠ 0 :=
          (busy_iff_testBit _).2 (hbusy m hlt)
        rcases hc with ⟨hf, -⟩ | ⟨-, hne, -⟩ | ⟨-, -, hz, -⟩ | ⟨-, -, hz, -⟩
        · omega
        · exact hne (hok (1 + m) (by omega))
        · exact hbm hz
        · exact hbm hz
      · exact heq
      · exfalso
        have := (hm n hgt).1
        rw [Nat.add_comm 1 n] at this
        exact hfail this
    subst hmn
    have e0 : 1 + m = m + 1 := by omega
    have e1 : 1 + m + 1 = m + 2 := by omega
    rw [e1, e0] at hc
    rcases hc with ⟨hf, -⟩ | ⟨-, -, hr, henv, ht, hh⟩ | ⟨-, hz, -⟩ | ⟨-, hz, -⟩
    · omega
    · exact ⟨hr, henv, ht, hh⟩
    · exact absurd hz hfail
    · exact absurd hz hfail

/-- Every transfer issued before the last one of a run succeeded, and a run
that stopped on a failed transfer returns its code with the outputs untouched. -/
theorem read_issued_fail (fuel : Nat) (bus : Nat → Resp) (t h : ℚ) (k : Nat)
    (hk : k < (aht10_read_data fuel (Env.start bus) t h).env.next)
    (hfail : (bus k).ret ≠ 0) :
    (aht10_read_data fuel (Env.start bus) t h).ret = some (bus k).ret ∧
    (aht10_read_data fuel (Env.start bus) t h).env.next = k + 1 ∧
    (aht10_read_data fuel (Env.start bus) t h).temperature = t ∧
    (aht10_read_data fuel (Env.start bus) t h).humidity = h ∧
    ((k = 0 ∧ (aht10_read_data fuel (Env.start bus) t h).env.trace =
        [Action.write AHT10_I2C_ADDR [AHT10_CMD_TRIGGER, 0x33, 0x00]]) ∨
     (1 ≤ k ∧ (aht10_read_data fuel (Env.start bus) t h).env.trace =
        [Action.write AHT10_I2C_ADDR [AHT10_CMD_TRIGGER, 0x33, 0x00], Action.sleep 80] ++
        busyRounds (k - 1) ++ [Action.read AHT10_I2C_ADDR 1]) ∨
     (2 ≤ k ∧ (aht10_read_data fuel (Env.start bus) t h).env.trace =
        [Action.write AHT10_I2C_ADDR [AHT10_CMD_TRIGGER, 0x33, 0x00], Action.sleep 80] ++
        busyRounds (k - 2) ++ [Action.read AHT10_I2C_ADDR 1, Action.read AHT10_I2C_ADDR 6])) := by
  rcases read_cases fuel bus t h _ rfl with ⟨-, hr, henv, ht, hh⟩ | ⟨h0, n, -, hm, hc⟩
  · rw [henv] at hk ⊢
    have hk0 : k = 0 := Nat.lt_one_iff.1 hk
    subst hk0
    exact ⟨hr, rfl, ht, hh, Or.inl ⟨rfl, rfl⟩⟩
  · -- transfers `0 .. n` succeeded
    have hpre : ∀ j, j ≤ n → (bus j).ret = 0 := by
      intro j hj
      rcases Nat.eq_zero_or_pos j with hj0 | hjp
      · rw [hj0]; exact h0
      · have := (hm (j - 1) (by omega)).1
        rwa [show 1 + (j - 1) = j by omega] at this
    have hkn : ¬ k ≤ n := fun hle => hfail (hpre k hle)
    rcases hc with ⟨-, -, henv, -⟩ | ⟨-, -, hr, henv, ht, hh⟩ |
      ⟨-, hs, -, -, hr, henv, ht, hh⟩ | ⟨-, hs, -, hf, -, henv, -⟩
    · rw [henv] at hk
      exact absurd (show k ≤ n by simpa [Nat.lt_succ_iff, Nat.add_comm] using hk) hkn
    · rw [henv] at hk ⊢
      have hk1 : k = n + 1 := by
        have : k < 1 + n + 1 := hk
        omega
      subst hk1
      rw [Nat.add_comm 1 n] at hr
      refine ⟨hr, by show 1 + n + 1 = n + 1 + 1; omega, ht, hh, Or.inr (Or.inl ⟨by omega, ?_⟩)⟩
      rw [Nat.add_sub_cancel]
    · rw [henv] at hk ⊢
      have hk2 : k = n + 2 := by
        have hlt : k < 1 + n + 2 := hk
        have hne1 : k ≠ n + 1 := by
          intro he
          rw [he, Nat.add_comm n 1] at hfail
          exact hfail hs
        omega
      subst hk2
      rw [show 1 + n + 1 = n + 2 by omega] at hr
      refine ⟨hr, by show 1 + n + 2 = n + 2 + 1; omega, ht, hh, Or.inr (Or.inr ⟨by omega, ?_⟩)⟩
      rw [Nat.add_sub_cancel]
    · exfalso
      rw [henv] at hk
      have hlt : k < 1 + n + 2 := hk
      have hne1 : k ≠ n + 1 := by
        intro he
        rw [he, Nat.add_comm n 1] at hfail
        exact hfail hs
      have hne2 : k ≠ n + 2 := by
        intro he
        rw [he, show n + 2 = 1 + n + 1 by omega] at hfail
        exact hfail hf
      omega

/-- A run that does not return 0 leaves the outputs as they were. -/
theorem read_outputs_kept (fuel : Nat) (bus : Nat → Resp) (t h : ℚ)
    (hret : (aht10_read_data fuel (Env.start bus) t h).ret ≠ some 0) :
    (aht10_read_data fuel (Env.start bus) t h).temperature = t ∧
    (aht10_read_data fuel (Env.start bus) t h).humidity = h := by
  rcases read_cases fuel bus t h _ rfl with ⟨-, -, -, ht, hh⟩ | ⟨-, n, -, -, hc⟩
  · exact ⟨ht, hh⟩
  · rcases hc with ⟨-, -, -, ht, hh⟩ | ⟨-, -, -, -, ht, hh⟩ | ⟨-, -, -, -, -, -, ht, hh⟩ |
      ⟨-, -, -, -, hr, -⟩
    · exact ⟨ht, hh⟩
    · exact ⟨ht, hh⟩
    · exact ⟨ht, hh⟩
    · exact absurd hr hret

/-- C10: if a transfer issued by `aht10_read_data` (transfer `k`: the trigger
write, a status read or the 6-byte frame read) fails with a non-zero code, the
function returns exactly that code, transfer `k` is the last transfer issued
and the last action of the log, and the caller's temperature and humidity are
unchanged.  The outputs are unchanged on every run that does not return 0.
Each kind of failure is reached: a failing trigger write ends the run after
the write; with fuel for more than `n` iterations, a status read failing after
`n` busy ones ends it after that read, and a frame read failing after the
ready status ends it after the frame read. -/
theorem C10_failure_propagation (fuel : Nat) (bus : Nat → Resp) (t h : ℚ) (k : Nat)
    (hk : k < (aht10_read_data fuel (Env.start bus) t h).env.next)
    (hfail : (bus k).ret ≠ 0) :
    (aht10_read_data fuel (Env.start bus) t h).ret = some (bus k).ret ∧
    (aht10_read_data fuel (Env.start bus) t h).env.next = k + 1 ∧
    (aht10_read_data fuel (Env.start bus) t h).temperature = t ∧
    (aht10_read_data fuel (Env.start bus) t h).humidity = h ∧
    ((k = 0 ∧ (aht10_read_data fuel (Env.start bus) t h).env.trace =
        [Action.write 0x38 [0xAC, 0x33, 0x00]]) ∨
     (1 ≤ k ∧ (aht10_read_data fuel (Env.start bus) t h).env.trace =
        [Action.write 0x38 [0xAC, 0x33, 0x00], Action.sleep 80] ++
        (List.replicate (k - 1) [Action.read 0x38 1, Action.sleep 10]).flatten ++
        [Action.read 0x38 1]) ∨
     (2 ≤ k ∧ (aht10_read_data fuel (Env.start bus) t h).env.trace =
        [Action.write 0x38 [0xAC, 0x33, 0x00], Action.sleep 80] ++
        (List.replicate (k - 2) [Action.read 0x38 1, Action.sleep 10]).flatten ++
        [Action.read 0x38 1, Action.read 0x38 6])) ∧
    (∀ (fuel' : Nat) (bus' : Nat → Resp) (t' h' : ℚ),
      (aht10_read_data fuel' (Env.start bus') t' h').ret ≠ some 0 →
      (aht10_read_data fuel' (Env.start bus') t' h').temperature = t' ∧
      (aht10_read_data fuel' (Env.start bus') t' h').humidity = h') ∧
    (∀ (fuel' : Nat) (bus' : Nat → Resp) (t' h' : ℚ), (bus' 0).ret ≠ 0 →
      (aht10_read_data fuel' (Env.start bus') t' h').ret = some (bus' 0).ret ∧
      (aht10_read_data fuel' (Env.start bus') t' h').env.next = 1 ∧
      (aht10_read_data fuel' (Env.start bus') t' h').env.trace =
        [Action.write 0x38 [0xAC, 0x33, 0x00]]) ∧
    (∀ (n fuel' : Nat) (bus' : Nat → Resp) (t' h' : ℚ), n < fuel' →
      (∀ j, j ≤ n → (bus' j).ret = 0) →
      (∀ j, j < n → Nat.testBit ((bus' (1 + j)).byte 0) 7 = true) →
      (bus' (n + 1)).ret ≠ 0 →
      (aht10_read_data fuel' (Env.start bus') t' h').ret = some (bus' (n + 1)).ret ∧
      (aht10_read_data fuel' (Env.start bus') t' h').env.next = n + 2 ∧
      (aht10_read_data fuel' (Env.start bus') t' h').env.trace =
        [Action.write 0x38 [0xAC, 0x33, 0x00], Action.sleep 80] ++
        (List.replicate n [Action.read 0x38 1, Action.sleep 10]).flatten ++
        [Action.read 0x38 1]) ∧
    (∀ (n fuel' : Nat) (bus' : Nat → Resp) (t' h' : ℚ), n < fuel' →
      (∀ j, j ≤ n + 1 → (bus' j).ret = 0) →
      (∀ j, j < n → Nat.testBit ((bus' (1 + j)).byte 0) 7 = true) →
      Nat.testBit ((bus' (n + 1)).byte 0) 7 = false →
      (bus' (n + 2)).ret ≠ 0 →
      (aht10_read_data fuel' (Env.start bus') t' h').ret = some (bus' (n + 2)).ret ∧
      (aht10_read_data fuel' (Env.start bus') t' h').env.next = n + 3 ∧
      (aht10_read_data fuel' (Env.start bus') t' h').env.trace =
        [Action.write 0x38 [0xAC, 0x33, 0x00], Action.sleep 80] ++
        (List.replicate n [Action.read 0x38 1, Action.sleep 10]).flatten ++
        [Action.read 0x38 1, Action.read 0x38 6]) := by
  obtain ⟨hr, hnext, ht, hh, hshape⟩ := read_issued_fail fuel bus t h k hk hfail
  refine ⟨hr, hnext, ht, hh, hshape, read_outputs_kept, ?_, ?_, ?_⟩
  · intro fuel' bus' t' h' h0
    rw [read_trigger_fail fuel' bus' t' h' h0]
    exact ⟨rfl, rfl, rfl⟩
  · intro n fuel' bus' t' h' hfuel hok hbusy hf
    obtain ⟨hr', henv, -, -⟩ := read_status_fails n fuel' bus' t' h' hfuel hok hbusy hf
    rw [henv]
    exact ⟨hr', rfl, rfl⟩
  · intro n fuel' bus' t' h' hfuel hok hbusy hready hf
    obtain ⟨henv, hc⟩ := read_reaches_frame n fuel' bus' t' h' hfuel hok hbusy hready
    rcases hc with ⟨-, hr', -⟩ | ⟨hz, -⟩
    · rw [henv]
      exact ⟨hr', rfl, rfl⟩
    · exact absurd hz hf

/-- Witness for C10: the trigger write succeeds, the first status read finds
the sensor busy, the second status read fails with code -5. -/
theorem C10_failure_propagation_witness :
    (scriptBus [⟨0, []⟩, ⟨0, [0x80]⟩, ⟨-5, []⟩] 2).ret ≠ 0 ∧
    (aht10_read_data 5 (Env.start (scriptBus [⟨0, []⟩, ⟨0, [0x80]⟩, ⟨-5, []⟩])) 21 40).ret
      = some (-5) ∧
    (aht10_read_data 5 (Env.start (scriptBus [⟨0, []⟩, ⟨0, [0x80]⟩, ⟨-5, []⟩])) 21 40).env.next
      = 3 ∧
    (aht10_read_data 5 (Env.start (scriptBus [⟨0, []⟩, ⟨0, [0x80]⟩, ⟨-5, []⟩])) 21 40).temperature
      = 21 ∧
    (aht10_read_data 5 (Env.start (scriptBus [⟨0, []⟩, ⟨0, [0x80]⟩, ⟨-5, []⟩])) 21 40).humidity
      = 40 :=
  have w := C10_failure_propagation 5 (scriptBus [⟨0, []⟩, ⟨0, [0x80]⟩, ⟨-5, []⟩]) 21 40 2
    (by decide) (by decide)
  ⟨by decide, w.1, w.2.1, w.2.2.1, w.2.2.2.1⟩

/-! `send_uart_data` -/

theorem cformat_json (rnd : ℚ → Nat) (t h : ℚ) (ts : Int) :
    cformat rnd json_fmt [Arg.double t, Arg.double h, Arg.llong ts] =
      "\x7b\"temperature\":".toList ++ fmt_f2 rnd t ++ ",\"humidity\":".toList ++
      fmt_f2 rnd h ++ ",\"timestamp\":".toList ++ fmt_d ts ++ "\x7d\r\n".toList := by
  simp [json_fmt, cformat]

theorem cformat_human (rnd : ℚ → Nat) (t h : ℚ) (ts : Int) :
    cformat rnd human_fmt [Arg.double t, Arg.double h, Arg.llong ts] =
      "TEMP: ".toList ++ fmt_f2 rnd t ++ "\xC2\xB0C, HUMID: ".toList ++ fmt_f2 rnd h ++
      "%, TIME: ".toList ++ fmt_d ts ++ "ms\r\n".toList := by
  simp [human_fmt, cformat]

/-- The send loop hands over the `k` buffer bytes from index `i` on, as long as
they lie inside the buffer. -/
theorem uart_send_inside (k : Nat) : ∀ (i : Nat) (buf : List Char) (s : Sys),
    i + k ≤ buf.length →
    uart_send k i buf s = some ⟨s.clock, s.ticks, s.uart ++ (buf.drop i).take k⟩ := by
  induction k with
  | zero => intro i buf s _; simp [uart_send]
  | succ k ih =>
    intro i buf s hlen
    have hi : i < buf.length := by omega
    have hget : buf[i]? = some buf[i] := List.getElem?_eq_getElem hi
    rw [uart_send, hget]
    simp only
    rw [ih (i + 1) buf (uart_poll_out s buf[i]) (by omega)]
    have hdrop : buf.drop i = buf[i] :: buf.drop (i + 1) := List.drop_eq_getElem_cons hi
    rw [hdrop, List.take_succ_cons]
    simp [uart_poll_out]

theorem snprintf_fits (rnd : ℚ → Nat) (buf : List Char) (size : Nat) (fmt : List Char)
    (args : List Arg) (hfit : (cformat rnd fmt args).length + 1 ≤ size) :
    (snprintf rnd buf size fmt args).1 ≤ (snprintf rnd buf size fmt args).2.length ∧
    (snprintf rnd buf size fmt args).2.take (snprintf rnd buf size fmt args).1 =
      cformat rnd fmt args := by
  have htake : (cformat rnd fmt args).take (size - 1) = cformat rnd fmt args :=
    List.take_of_length_le (by omega)
  simp only [snprintf, htake, List.append_assoc, List.length_append]
  refine ⟨by omega, ?_⟩
  rw [List.take_append_of_le_length (le_refl _), List.take_length]

/-- When both expanded lines fit the 128-byte buffer, `send_uart_data` hands
exactly the two lines to the UART and reads the clock twice. -/
theorem send_uart_data_fits (rnd : ℚ → Nat) (s : Sys) (t h : ℚ)
    (h1 : (cformat rnd json_fmt
      [Arg.double t, Arg.double h, Arg.llong (s.clock s.ticks)]).length + 1 ≤ 128)
    (h2 : (cformat rnd human_fmt
      [Arg.double t, Arg.double h, Arg.llong (s.clock (s.ticks + 1))]).length + 1 ≤ 128) :
    send_uart_data rnd s t h = some ⟨s.clock, s.ticks + 2, s.uart ++
      cformat rnd json_fmt [Arg.double t, Arg.double h, Arg.llong (s.clock s.ticks)] ++
      cformat rnd human_fmt [Arg.double t, Arg.double h, Arg.llong (s.clock (s.ticks + 1))]⟩ := by
  unfold send_uart_data
  generalize List.replicate 128 (Char.ofNat 0) = buf0
  obtain ⟨hb1, ht1⟩ := snprintf_fits rnd buf0 128 json_fmt
    [Arg.double t, Arg.double h, Arg.llong (s.clock s.ticks)] h1
  have hs1 := uart_send_inside _ 0 _ ⟨s.clock, s.ticks + 1, s.uart⟩ (by simpa using hb1)
  simp only [List.drop_zero, ht1] at hs1
  simp only [k_uptime_get, hs1]
  obtain ⟨hb2, ht2⟩ := snprintf_fits rnd
    (snprintf rnd buf0 128 json_fmt
      [Arg.double t, Arg.double h, Arg.llong (s.clock s.ticks)]).2 128 human_fmt
    [Arg.double t, Arg.double h, Arg.llong (s.clock (s.ticks + 1))] h2
  have hs2 := uart_send_inside _ 0 _ ⟨s.clock, s.ticks + 1 + 1, s.uart ++
    cformat rnd json_fmt [Arg.double t, Arg.double h, Arg.llong (s.clock s.ticks)]⟩
    (by simpa using hb2)
  simp only [List.drop_zero, ht2] at hs2
  rw [hs2]

/-! Decimal rendering -/

theorem digitChar_isDigit : ∀ d, d < 10 → (Nat.digitChar d).isDigit = true := by decide

theorem digitChar_value : ∀ d, d < 10 → (Nat.digitChar d).toNat - 48 = d := by decide

theorem toDigitsCore_append (fuel : Nat) : ∀ (n : Nat) (ds : List Char),
    Nat.toDigitsCore 10 fuel n ds = Nat.toDigitsCore 10 fuel n [] ++ ds := by
  induction fuel with
  | zero => intro n ds; rfl
  | succ fuel ih =>
    intro n ds
    simp only [Nat.toDigitsCore]
    by_cases hz : n / 10 = 0
    · simp [hz]
    · simp only [hz, if_false]
      rw [ih (n / 10) (Nat.digitChar (n % 10) :: ds), ih (n / 10) [Nat.digitChar (n % 10)]]
      simp

theorem toDigitsCore_isDigit (fuel : Nat) : ∀ (n : Nat) (ds : List Char),
    (∀ c ∈ ds, c.isDigit = true) → ∀ c ∈ Nat.toDigitsCore 10 fuel n ds, c.isDigit = true := by
  induction fuel with
  | zero => intro n ds hds c hc; exact hds c hc
  | succ fuel ih =>
    intro n ds hds c hc
    have hd : (Nat.digitChar (n % 10)).isDigit = true :=
      digitChar_isDigit _ (Nat.mod_lt _ (by decide))
    have hds' : ∀ c ∈ Nat.digitChar (n % 10) :: ds, c.isDigit = true := by
      intro c hc
      rcases List.mem_cons.1 hc with rfl | hc
      · exact hd
      · exact hds c hc
    simp only [Nat.toDigitsCore] at hc
    by_cases hz : n / 10 = 0
    · simp only [hz, if_true] at hc
      exact hds' c hc
    · simp only [hz, if_false] at hc
      exact ih (n / 10) _ hds' c hc

theorem toDigits_isDigit (n : Nat) : ∀ c ∈ Nat.toDigits 10 n, c.isDigit = true :=
  toDigitsCore_isDigit (n + 1) n [] (fun _ hc => absurd hc (List.not_mem_nil _))

theorem toDigits_length_le (n e : Nat) (he : 0 < e) (hn : n < 10 ^ e) :
    (Nat.toDigits 10 n).length ≤ e :=
  Nat.toDigitsCore_length 10 (by decide) (n + 1) n e hn he

theorem toDigits_ne_nil (n : Nat) : Nat.toDigits 10 n ≠ [] := by
  unfold Nat.toDigits
  simp only [Nat.toDigitsCore]
  by_cases hz : n / 10 = 0
  · simp [hz]
  · simp only [hz, if_false]
    rw [toDigitsCore_append]
    simp

theorem digits_value_append (l : List Char) (c : Char) :
    digits_value (l ++ [c]) = 10 * digits_value l + (c.toNat - 48) := by
  simp [digits_value, List.foldl_append]

theorem digits_value_toDigitsCore (fuel : Nat) : ∀ n, n < fuel →
    digits_value (Nat.toDigitsCore 10 fuel n []) = n := by
  induction fuel with
  | zero => intro n hn; omega
  | succ fuel ih =>
    intro n hn
    have hd := digitChar_value (n % 10) (Nat.mod_lt _ (by decide))
    simp only [Nat.toDigitsCore]
    by_cases hz : n / 10 = 0
    · simp only [hz, if_true]
      have := digits_value_append [] (Nat.digitChar (n % 10))
      simp only [List.nil_append] at this
      rw [this, hd]
      simp only [digits_value, List.foldl_nil]
      omega
    · simp only [hz, if_false]
      rw [toDigitsCore_append, digits_value_append, ih (n / 10) (by omega), hd]
      omega

theorem digits_value_toDigits (n : Nat) : digits_value (Nat.toDigits 10 n) = n :=
  digits_value_toDigitsCore (n + 1) n (Nat.lt_succ_self n)

/-- Reading back the text of `%d` / `%lld` gives the number printed. -/
theorem read_d_fmt_d (n : Int) : read_d (fmt_d n) = n := by
  unfold fmt_d
  by_cases hn : n < 0
  · simp only [hn, if_true, List.singleton_append, read_d, digits_value_toDigits]
    omega
  · simp only [hn, if_false, List.nil_append]
    have hne := toDigits_ne_nil n.natAbs
    have hdig := toDigits_isDigit n.natAbs
    cases hl : Nat.toDigits 10 n.natAbs with
    | nil => exact absurd hl hne
    | cons c l =>
      have hc : c.isDigit = true := hdig c (by rw [hl]; exact List.mem_cons_self _ _)
      have hminus : c ≠ '-' := by
        intro he
        rw [he] at hc
        exact absurd hc (by decide)
      have hv := digits_value_toDigits n.natAbs
      rw [hl] at hv
      rw [read_d]
      · rw [hv]; omega
      · intro l' he
        exact hminus (List.cons.inj he).1

/-! Fields of the two lines -/

theorem fmt_d_length_le (n : Int) (e : Nat) (he : 0 < e) (hn : n.natAbs < 10 ^ e) :
    (fmt_d n).length ≤ 1 + e := by
  have := toDigits_length_le n.natAbs e he hn
  unfold fmt_d
  by_cases h : n < 0 <;> simp [h] <;> omega

theorem fmt_f2_length_le (rnd : ℚ → Nat) (x : ℚ) (e : Nat) (he : 0 < e)
    (hx : rnd |x| / 100 < 10 ^ e) : (fmt_f2 rnd x).length ≤ 1 + e + 3 := by
  have := toDigits_length_le (rnd |x| / 100) e he hx
  unfold fmt_f2
  by_cases h : x < 0 <;> simp [h] <;> omega

/-- Text of `%.2f`: a non-empty whole part made of an optional sign and digits,
then a point and exactly two digits. -/
theorem fmt_f2_shape (rnd : ℚ → Nat) (x : ℚ) :
    ∃ w d1 d2, fmt_f2 rnd x = w ++ ['.', d1, d2] ∧ d1.isDigit = true ∧ d2.isDigit = true ∧
      w ≠ [] ∧ ∀ c ∈ w, c = '-' ∨ c.isDigit = true := by
  refine ⟨(if x < 0 then ['-'] else []) ++ Nat.toDigits 10 (rnd |x| / 100),
    Nat.digitChar (rnd |x| % 100 / 10), Nat.digitChar (rnd |x| % 10), rfl,
    digitChar_isDigit _ (by omega), digitChar_isDigit _ (Nat.mod_lt _ (by decide)), ?_, ?_⟩
  · intro hnil
    exact toDigits_ne_nil _ (List.append_eq_nil.1 hnil).2
  · intro c hc
    rcases List.mem_append.1 hc with hs | hd
    · left
      by_cases h : x < 0
      · simpa [h] using hs
      · simp [h] at hs
    · right
      exact toDigits_isDigit _ c hd

theorem rnd_whole_lt (rnd : ℚ → Nat) (hrnd : ∀ q : ℚ, 0 ≤ q → (rnd q : ℚ) ≤ 100 * q + 1)
    (x : ℚ) (hx : |x| ≤ 150) : rnd |x| / 100 < 10 ^ 3 := by
  have h1 := hrnd |x| (abs_nonneg x)
  have h2 : (rnd |x| : ℚ) ≤ 15001 := by linarith
  have h3 : rnd |x| ≤ 15001 := by exact_mod_cast h2
  omega

theorem int64_natAbs_lt (n : Int) (hlo : -2 ^ 63 ≤ n) (hhi : n < 2 ^ 63) :
    n.natAbs < 10 ^ 19 := by
  omega

/-- Both expanded lines fit the 128-byte buffer for readings in the sensor
range and 64-bit timestamps. -/
theorem lines_fit (rnd : ℚ → Nat) (hrnd : ∀ q : ℚ, 0 ≤ q → (rnd q : ℚ) ≤ 100 * q + 1)
    (t h : ℚ) (ts : Int) (ht : |t| ≤ 150) (hh : |h| ≤ 150)
    (hlo : -2 ^ 63 ≤ ts) (hhi : ts < 2 ^ 63) :
    (cformat rnd json_fmt [Arg.double t, Arg.double h, Arg.llong ts]).length + 1 ≤ 128 ∧
    (cformat rnd human_fmt [Arg.double t, Arg.double h, Arg.llong ts]).length + 1 ≤ 128 := by
  have h1 := fmt_f2_length_le rnd t 3 (by decide) (rnd_whole_lt rnd hrnd t ht)
  have h2 := fmt_f2_length_le rnd h 3 (by decide) (rnd_whole_lt rnd hrnd h hh)
  have h3 := fmt_d_length_le ts 19 (by decide) (int64_natAbs_lt ts hlo hhi)
  rw [cformat_json, cformat_human]
  simp only [List.length_append]
  constructor
  · have e1 : "\x7b\"temperature\":".toList.length = 15 := by decide
    have e2 : ",\"humidity\":".toList.length = 12 := by decide
    have e3 : ",\"timestamp\":".toList.length = 13 := by decide
    have e4 : "\x7d\r\n".toList.length = 3 := by decide
    omega
  · have e1 : "TEMP: ".toList.length = 6 := by decide
    have e2 : "\xC2\xB0C, HUMID: ".toList.length = 12 := by decide
    have e3 : "%, TIME: ".toList.length = 9 := by decide
    have e4 : "ms\r\n".toList.length = 4 := by decide
    omega

/-! Half-up rounding, used for the concrete runs -/

theorem round_hundredths_le (q : ℚ) (hq : 0 ≤ q) : (round_hundredths q : ℚ) ≤ 100 * q + 1 := by
  have hx : (0 : ℚ) ≤ 100 * q + 1 / 2 := by linarith
  have hf : (0 : ℤ) ≤ ⌊100 * q + 1 / 2⌋ := Int.floor_nonneg.2 hx
  have hcast : ((round_hundredths q : ℕ) : ℚ) = ((⌊100 * q + 1 / 2⌋ : ℤ) : ℚ) := by
    unfold round_hundredths
    rw [← Int.cast_natCast, Int.toNat_of_nonneg hf]
  have hle : ((⌊100 * q + 1 / 2⌋ : ℤ) : ℚ) ≤ 100 * q + 1 / 2 := Int.floor_le _
  rw [hcast]
  linarith

theorem round_hundredths_nat (n : Nat) : round_hundredths |(n : ℚ)| = 100 * n := by
  have habs : |(n : ℚ)| = n := abs_of_nonneg (Nat.cast_nonneg n)
  have hfl : ⌊(100 : ℚ) * n + 1 / 2⌋ = ((100 * n : ℕ) : ℤ) := by
    rw [Int.floor_eq_iff]
    push_cast
    constructor <;> linarith
  unfold round_hundredths
  rw [habs, hfl, Int.toNat_natCast]

theorem fmt_f2_25 : fmt_f2 round_hundredths 25 = "25.00".toList := by
  have hr : round_hundredths |(25 : ℚ)| = 2500 := round_hundredths_nat 25
  have hneg : ¬ ((25 : ℚ) < 0) := by norm_num
  unfold fmt_f2
  rw [hr, if_neg hneg]
  decide

theorem fmt_f2_40 : fmt_f2 round_hundredths 40 = "40.00".toList := by
  have hr : round_hundredths |(40 : ℚ)| = 4000 := round_hundredths_nat 40
  have hneg : ¬ ((40 : ℚ) < 0) := by norm_num
  unfold fmt_f2
  rw [hr, if_neg hneg]
  decide

/-- Output of `send_uart_data` for the reading (25, 40) when the clock reads
1000 at the first call and 1003 at the second. -/
theorem send_uart_data_ticking :
    (send_uart_data round_hundredths ⟨fun k => 1000 + 3 * (k : Int), 0, []⟩ 25 40).map Sys.uart =
      some ("\x7b\"temperature\":25.00,\"humidity\":40.00,\"timestamp\":1000\x7d\r\n".toList ++
        "TEMP: 25.00\xC2\xB0C, HUMID: 40.00%, TIME: 1003ms\r\n".toList) := by
  have hf1 := (lines_fit round_hundredths round_hundredths_le 25 40 1000 (by norm_num [abs_le])
    (by norm_num [abs_le]) (by norm_num) (by norm_num)).1
  have hf2 := (lines_fit round_hundredths round_hundredths_le 25 40 1003 (by norm_num [abs_le])
    (by norm_num [abs_le]) (by norm_num) (by norm_num)).2
  have e1 : fmt_d 1000 = "1000".toList := by decide
  have e2 : fmt_d 1003 = "1003".toList := by decide
  have hs := send_uart_data_fits round_hundredths ⟨fun k => 1000 + 3 * (k : Int), 0, []⟩ 25 40
    (by simpa using hf1) (by simpa using hf2)
  rw [hs]
  simp only [Option.map, Nat.zero_add, Nat.cast_zero, Nat.cast_one, mul_zero, mul_one, add_zero,
    List.nil_append]
  rw [show (1000 : ℤ) + 3 = 1003 by norm_num, cformat_json, cformat_human, fmt_f2_25, fmt_f2_40,
    e1, e2]
  decide

/-- A send loop that has to read past the end of the buffer has no defined
result. -/
theorem uart_send_outside (k : Nat) : ∀ (i : Nat) (buf : List Char) (s : Sys),
    i ≤ buf.length → buf.length < i + k → uart_send k i buf s = none := by
  induction k with
  | zero => intro i buf s h1 h2; omega
  | succ k ih =>
    intro i buf s h1 h2
    rw [uart_send]
    by_cases hi : i < buf.length
    · rw [List.getElem?_eq_getElem hi]
      exact ih (i + 1) buf _ (by omega) (by omega)
    · rw [List.getElem?_eq_none (by omega)]

/-- Outside the sensor range the structured line need not fit: for the
readings `2^126` (a `float` value) its expansion has 129 characters, `snprintf`
keeps 127 of them and returns 129, and the send loop reads `uart_buffer[128]`,
past the end of the 128-byte buffer. -/
theorem send_uart_data_overflow :
    (cformat round_hundredths json_fmt
      [Arg.double (2 ^ 126), Arg.double (2 ^ 126), Arg.llong 1000]).length = 129 ∧
    send_uart_data round_hundredths ⟨fun k => 1000 + 3 * (k : Int), 0, []⟩ (2 ^ 126) (2 ^ 126) =
      none := by
  have hr : round_hundredths |((2 : ℚ) ^ 126)| = 100 * 2 ^ 126 := by
    have := round_hundredths_nat (2 ^ 126)
    rwa [Nat.cast_pow, Nat.cast_ofNat] at this
  have hneg : ¬ ((2 : ℚ) ^ 126 < 0) := not_lt.2 (by positivity)
  have hf : (fmt_f2 round_hundredths (2 ^ 126)).length = 41 := by
    unfold fmt_f2
    rw [hr, if_neg hneg]
    decide
  have hlen : (cformat round_hundredths json_fmt
      [Arg.double (2 ^ 126), Arg.double (2 ^ 126), Arg.llong 1000]).length = 129 := by
    rw [cformat_json]
    simp only [List.length_append, hf]
    decide
  refine ⟨hlen, ?_⟩
  unfold send_uart_data
  simp only [k_uptime_get, snprintf, Nat.cast_zero, mul_zero, add_zero, hlen]
  rw [uart_send_outside 129 0 _ _ (Nat.zero_le _) (by simp [hlen])]

/-- Counterexample to C11 as stated: for the reading (25, 40) and an uptime
clock that reads 1000 at the first call and 1003 at the second, the structured
line carries the timestamp 1000 and the human-readable line carries 1003. -/
theorem C11_timestamps_differ :
    (send_uart_data round_hundredths ⟨fun k => 1000 + 3 * (k : Int), 0, []⟩ 25 40).map Sys.uart =
      some ("\x7b\"temperature\":25.00,\"humidity\":40.00,\"timestamp\":1000\x7d\r\n".toList ++
        "TEMP: 25.00\xC2\xB0C, HUMID: 40.00%, TIME: 1003ms\r\n".toList) ∧
    read_d "1000".toList = 1000 ∧ read_d "1003".toList = 1003 ∧
    read_d "1000".toList ≠ read_d "1003".toList :=
  ⟨send_uart_data_ticking, by decide, by decide, by decide⟩

/-- C11 (amended): for every reading in the sensor range (`-50 <= temperature
< 150`, `0 <= humidity < 100`), every 64-bit behaviour of the uptime clock and
every rounding `rnd` of the C library that is within one hundredth above the
value, one call of `send_uart_data` reads the clock twice and hands exactly two
untruncated lines to the UART: the structured line, then the human-readable
line.  Both lines carry the same temperature text and the same humidity text,
each with a point followed by exactly two digits, and each line ends with
CR LF.  The timestamp of the structured line is the first clock reading and
the timestamp of the human-readable line is the second clock reading; the two
timestamp texts are equal if and only if the two readings are equal. -/
theorem C11_uart_lines (rnd : ℚ → Nat) (hrnd : ∀ q : ℚ, 0 ≤ q → (rnd q : ℚ) ≤ 100 * q + 1)
    (s : Sys) (temperature humidity : ℚ)
    (ht : -50 ≤ temperature ∧ temperature < 150) (hh : 0 ≤ humidity ∧ humidity < 100)
    (hc0 : -2 ^ 63 ≤ s.clock s.ticks ∧ s.clock s.ticks < 2 ^ 63)
    (hc1 : -2 ^ 63 ≤ s.clock (s.ticks + 1) ∧ s.clock (s.ticks + 1) < 2 ^ 63) :
    ∃ line1 line2 : List Char,
      send_uart_data rnd s temperature humidity =
        some ⟨s.clock, s.ticks + 2, s.uart ++ line1 ++ line2⟩ ∧
      line1 = "\x7b\"temperature\":".toList ++ fmt_f2 rnd temperature ++
        ",\"humidity\":".toList ++ fmt_f2 rnd humidity ++
        ",\"timestamp\":".toList ++ fmt_d (s.clock s.ticks) ++ "\x7d\r\n".toList ∧
      line2 = "TEMP: ".toList ++ fmt_f2 rnd temperature ++
        "\xC2\xB0C, HUMID: ".toList ++ fmt_f2 rnd humidity ++
        "%, TIME: ".toList ++ fmt_d (s.clock (s.ticks + 1)) ++ "ms\r\n".toList ∧
      line1.length < 128 ∧ line2.length < 128 ∧
      "\r\n".toList <:+ line1 ∧ "\r\n".toList <:+ line2 ∧
      (∃ w d1 d2, fmt_f2 rnd temperature = w ++ ['.', d1, d2] ∧ d1.isDigit = true ∧
        d2.isDigit = true ∧ w ≠ [] ∧ ∀ c ∈ w, c = '-' ∨ c.isDigit = true) ∧
      (∃ w d1 d2, fmt_f2 rnd humidity = w ++ ['.', d1, d2] ∧ d1.isDigit = true ∧
        d2.isDigit = true ∧ w ≠ [] ∧ ∀ c ∈ w, c = '-' ∨ c.isDigit = true) ∧
      read_d (fmt_d (s.clock s.ticks)) = s.clock s.ticks ∧
      read_d (fmt_d (s.clock (s.ticks + 1))) = s.clock (s.ticks + 1) ∧
      (fmt_d (s.clock s.ticks) = fmt_d (s.clock (s.ticks + 1)) ↔
        s.clock s.ticks = s.clock (s.ticks + 1)) := by
  have hta : |temperature| ≤ 150 := abs_le.2 ⟨by linarith [ht.1], le_of_lt ht.2⟩
  have hha : |humidity| ≤ 150 := abs_le.2 ⟨by linarith [hh.1], by linarith [hh.2]⟩
  have hf1 := (lines_fit rnd hrnd temperature humidity _ hta hha hc0.1 hc0.2).1
  have hf2 := (lines_fit rnd hrnd temperature humidity _ hta hha hc1.1 hc1.2).2
  have hs := send_uart_data_fits rnd s temperature humidity hf1 hf2
  rw [cformat_json] at hf1
  rw [cformat_human] at hf2
  rw [cformat_json, cformat_human] at hs
  refine ⟨_, _, hs, rfl, rfl, by omega, by omega, ?_, ?_, fmt_f2_shape rnd temperature,
    fmt_f2_shape rnd humidity, read_d_fmt_d _, read_d_fmt_d _, ?_⟩
  · exact List.IsSuffix.trans (by decide) (List.suffix_append _ _)
  · exact List.IsSuffix.trans (by decide) (List.suffix_append _ _)
  · constructor
    · intro he
      have := congrArg read_d he
      rwa [read_d_fmt_d, read_d_fmt_d] at this
    · intro he
      rw [he]

/-- Witness for C11 (amended): the reading (25, 40), half-up rounding, and a
clock that reads 1000 and then 1003. -/
theorem C11_uart_lines_witness :
    (-50 ≤ (25 : ℚ) ∧ (25 : ℚ) < 150) ∧ (0 ≤ (40 : ℚ) ∧ (40 : ℚ) < 100) ∧
    ∃ line1 line2 : List Char,
      send_uart_data round_hundredths ⟨fun k => 1000 + 3 * (k : Int), 0, []⟩ 25 40 =
        some ⟨fun k => 1000 + 3 * (k : Int), 0 + 2, [] ++ line1 ++ line2⟩ ∧
      line1.length < 128 ∧ line2.length < 128 ∧
      "\r\n".toList <:+ line1 ∧ "\r\n".toList <:+ line2 :=
  ⟨by norm_num, by norm_num,
    (C11_uart_lines round_hundredths round_hundredths_le ⟨fun k => 1000 + 3 * (k : Int), 0, []⟩
      25 40 (by norm_num) (by norm_num) (by norm_num) (by norm_num)).imp
      fun _ h1 => h1.imp fun _ h2 =>
        ⟨h2.1, h2.2.2.2.1, h2.2.2.2.2.1, h2.2.2.2.2.2.1, h2.2.2.2.2.2.2.1⟩⟩

/-! Display step of the plain reader -/

theorem tmod_neg_left (a b : Int) : (-a).tmod b = -(a.tmod b) := by
  have h1 := Int.tmod_add_tdiv (-a) b
  have h2 := Int.tmod_add_tdiv a b
  rw [Int.neg_tdiv] at h1
  have h3 : b * -(a.tdiv b) = -(b * a.tdiv b) := by ring
  rw [h3] at h1
  omega

/-- C division and remainder by 100 of a non-negative `int`. -/
theorem tdiv_tmod_nonneg (a : Int) (ha : 0 ≤ a) :
    a.tdiv 100 = a / 100 ∧ a.tmod 100 = a % 100 :=
  ⟨Int.tdiv_eq_ediv ha (by decide), Int.tmod_eq_emod ha (by decide)⟩

/-- C division and remainder by 100 of a non-positive `int`: both are the
negated quotient and remainder of the magnitude. -/
theorem tdiv_tmod_nonpos (a : Int) (ha : a ≤ 0) :
    a.tdiv 100 = -((-a) / 100) ∧ a.tmod 100 = -((-a) % 100) := by
  have hp : (0 : Int) ≤ -a := by omega
  obtain ⟨hd, hm⟩ := tdiv_tmod_nonneg (-a) hp
  have e1 := Int.neg_tdiv a 100
  have e2 := tmod_neg_left a 100
  constructor
  · omega
  · omega

theorem int_of_float_nonneg (x : ℚ) (hx : 0 ≤ x) : 0 ≤ int_of_float x := by
  unfold int_of_float
  rw [if_pos hx]
  exact Int.floor_nonneg.2 hx

theorem int_of_float_nonpos (x : ℚ) (hx : x < 0) : int_of_float x ≤ 0 := by
  unfold int_of_float
  rw [if_neg (not_le.2 hx)]
  exact Int.ceil_le.2 (by exact_mod_cast le_of_lt hx)

/-- A non-negative `int` splits into a whole part and a fraction in `0..99`
that together denote `a / 100`. -/
theorem split_nonneg (a : Int) (ha : 0 ≤ a) :
    0 ≤ a.tmod 100 ∧ a.tmod 100 ≤ 99 ∧ 0 ≤ a.tdiv 100 ∧
    ((a.tdiv 100 : Int) : ℚ) + ((a.tmod 100 : Int) : ℚ) / 100 = (a : ℚ) / 100 := by
  obtain ⟨hd, hm⟩ := tdiv_tmod_nonneg a ha
  have hid := Int.tmod_add_tdiv a 100
  have hq : ((a.tmod 100 : Int) : ℚ) + 100 * ((a.tdiv 100 : Int) : ℚ) = (a : ℚ) := by
    exact_mod_cast hid
  refine ⟨by omega, by omega, by omega, ?_⟩
  rw [← hq]
  ring

/-- A non-positive `int` splits into a non-positive whole part and a
non-positive fraction, the negated fraction of its magnitude. -/
theorem split_nonpos (a : Int) (ha : a ≤ 0) :
    a.tmod 100 = -((-a) % 100) ∧ a.tmod 100 ≤ 0 ∧ -99 ≤ a.tmod 100 ∧ a.tdiv 100 ≤ 0 ∧
    (0 ≤ a.tmod 100 ↔ a % 100 = 0) := by
  obtain ⟨hd, hm⟩ := tdiv_tmod_nonpos a ha
  refine ⟨hm, by omega, by omega, by omega, by omega⟩

theorem main_display_failing :
    main_display (-25 / 2) 0 =
      { temp_int := -1250, humid_int := 0, temp_whole := -12, temp_frac := -50,
        humid_whole := 0, humid_frac := 0 } := by
  have h1 : int_of_float (-25 / 2 * 100) = -1250 := by
    have hv : (-25 / 2 * 100 : ℚ) = ((-1250 : ℤ) : ℚ) := by norm_num
    have hneg : ¬ (0 : ℚ) ≤ ((-1250 : ℤ) : ℚ) := by norm_num
    unfold int_of_float
    rw [hv, if_neg hneg, Int.ceil_intCast]
  have h2 : int_of_float (0 * 100) = 0 := by
    unfold int_of_float
    norm_num
  unfold main_display
  rw [h1, h2]
  decide

theorem main_report_failing (rnd : ℚ → Nat) :
    main_report rnd (-25 / 2) 0 =
      ("Temperature: -12.-50\xC3\x82\xC2\xB0C\n".toList ++ "Humidity: 0.00%\n".toList ++
        "Raw temp: -1250, Raw humid: 0\n".toList ++ "------------------------\n".toList) := by
  unfold main_report
  rw [main_display_failing]
  simp only [cformat]
  decide

/-- C12, evaluated on the code: the frame `[0x00,0x00,0x00,0x03,0x00,0x00]` is
decoded by `aht10_read_data` into temperature -12.5 and humidity 0; the plain
reader then computes `temp_int = -1250` and prints `temp_int / 100 = -12` and
`temp_int % 100 = -50`, so the fraction is outside `0..99` and the console
shows `Temperature: -12.-50`.  The rendering is valid for the humidity of
every reading and for every temperature that is not negative; for a negative
temperature the printed fraction is the negated fraction of the magnitude,
which lies in `0..99` only when `temp_int` is a multiple of 100. -/
theorem C12_negative_temperature_display :
    (aht10_read_data 1 (Env.start (frameBus [0x00, 0x00, 0x00, 0x03, 0x00, 0x00])) 0 0).ret
      = some 0 ∧
    (aht10_read_data 1 (Env.start (frameBus [0x00, 0x00, 0x00, 0x03, 0x00, 0x00])) 0 0).temperature
      = -25 / 2 ∧
    (aht10_read_data 1 (Env.start (frameBus [0x00, 0x00, 0x00, 0x03, 0x00, 0x00])) 0 0).humidity
      = 0 ∧
    (main_display (-25 / 2) 0).temp_int = -1250 ∧
    (main_display (-25 / 2) 0).temp_whole = -12 ∧
    (main_display (-25 / 2) 0).temp_frac = -50 ∧
    ¬ (0 ≤ (main_display (-25 / 2) 0).temp_frac ∧ (main_display (-25 / 2) 0).temp_frac ≤ 99) ∧
    (∀ rnd : ℚ → Nat, main_report rnd (-25 / 2) 0 =
      "Temperature: -12.-50\xC3\x82\xC2\xB0C\n".toList ++ "Humidity: 0.00%\n".toList ++
        "Raw temp: -1250, Raw humid: 0\n".toList ++ "------------------------\n".toList) ∧
    (∀ temperature humidity : ℚ, 0 ≤ humidity →
      0 ≤ (main_display temperature humidity).humid_frac ∧
      (main_display temperature humidity).humid_frac ≤ 99 ∧
      0 ≤ (main_display temperature humidity).humid_whole ∧
      ((main_display temperature humidity).humid_whole : ℚ) +
        ((main_display temperature humidity).humid_frac : ℚ) / 100 =
        ((main_display temperature humidity).humid_int : ℚ) / 100) ∧
    (∀ temperature humidity : ℚ, 0 ≤ temperature →
      0 ≤ (main_display temperature humidity).temp_frac ∧
      (main_display temperature humidity).temp_frac ≤ 99 ∧
      0 ≤ (main_display temperature humidity).temp_whole ∧
      ((main_display temperature humidity).temp_whole : ℚ) +
        ((main_display temperature humidity).temp_frac : ℚ) / 100 =
        ((main_display temperature humidity).temp_int : ℚ) / 100) ∧
    (∀ temperature humidity : ℚ, temperature < 0 →
      (main_display temperature humidity).temp_frac =
        -((-(main_display temperature humidity).temp_int) % 100) ∧
      (main_display temperature humidity).temp_frac ≤ 0 ∧
      (main_display temperature humidity).temp_whole ≤ 0 ∧
      (0 ≤ (main_display temperature humidity).temp_frac ↔
        (main_display temperature humidity).temp_int % 100 = 0)) ∧
    (∀ raw : Nat, raw < 2 ^ 20 → 0 ≤ convert_humidity raw ∧ -50 ≤ convert_temperature raw) := by
  have wf := frame_bytes 0x00 0x00 0x00 0x03 0x00 0x00 (by decide) (by decide) (by decide)
    (by decide) (by decide) (by decide)
  have wh : raw_humidity [0x00, 0x00, 0x00, 0x03, 0x00, 0x00] = 0 :=
    raw_humidity_eq _ _ _ _ _ _ (by decide) (by decide) (by decide)
  have wt : raw_temperature [0x00, 0x00, 0x00, 0x03, 0x00, 0x00] = 196608 :=
    raw_temperature_eq _ _ _ _ _ _ (by decide) (by decide)
  have hd := main_display_failing
  refine ⟨?_, ?_, ?_, ?_, ?_, ?_, ?_, main_report_failing, ?_, ?_, ?_, ?_⟩
  · rw [read_frameBus]
  · rw [read_frameBus, wf]
    simp only [wt, convert_temperature]
    norm_num
  · rw [read_frameBus, wf]
    simp only [wh, convert_humidity]
    norm_num
  · rw [hd]
  · rw [hd]
  · rw [hd]
  · rw [hd]
    decide
  · intro temperature humidity hh
    exact split_nonneg _ (int_of_float_nonneg _ (by positivity))
  · intro temperature humidity ht
    exact split_nonneg _ (int_of_float_nonneg _ (by positivity))
  · intro temperature humidity ht
    have hx : temperature * 100 < 0 := by linarith
    obtain ⟨h1, h2, -, h4, h5⟩ := split_nonpos _ (int_of_float_nonpos _ hx)
    exact ⟨h1, h2, h4, h5⟩
  · intro raw hraw
    exact ⟨(convert_humidity_bounds raw hraw).1, (convert_temperature_bounds raw hraw).1⟩

end AHT10
